import Mathlib

/-!
Verification development for the fineract-gitops reconciliation and
drift-detection engine.

The Python sources under `operations/fineract-data/scripts/` are embedded
shallowly: JSON-like values become the inductive `Value`, Python dicts become
association lists (`Obj`), the remote Fineract system is modelled as an
explicit in-memory state that loader functions thread through, and Python
exceptions become `Except` results.  Machine floats in the sources are
modelled as exact rationals (`ℚ`); decimal literals of the source are read as
the corresponding rational.
-/

namespace FineractGitops

/-- A JSON-ish value as manipulated by the Python loaders: numbers (Python
`int`/`float`, conflated as an exact rational), booleans, strings, `None`,
and nested objects. -/
inductive Value where
  | vNum (q : ℚ)
  | vBool (b : Bool)
  | vStr (s : String)
  | vNull
  | vObj (fields : List (String × Value))
deriving Repr

/-- A Python dict with string keys, as an association list (first binding of
a key wins on lookup, matching the read side of a dict). -/
abbrev Obj := List (String × Value)

/-- Structural equality test on values, mirroring Python `==` on the JSON
fragment the loaders handle. -/
def Value.beq : Value → Value → Bool
  | .vNum a, .vNum b => a == b
  | .vBool a, .vBool b => a == b
  | .vStr a, .vStr b => a == b
  | .vNull, .vNull => true
  | .vObj a, .vObj b => go a b
  | _, _ => false
where
  go : List (String × Value) → List (String × Value) → Bool
    | [], [] => true
    | (k, v) :: t, (k2, v2) :: t2 => k == k2 && Value.beq v v2 && go t t2
    | _, _ => false

instance : BEq Value := ⟨Value.beq⟩

/-- Python truthiness (`if not value`) on the handled value shapes: `None`,
`False`, `0`, the empty string and the empty dict are falsy. -/
def pyFalsy : Value → Bool
  | .vNull => true
  | .vBool b => !b
  | .vNum q => q == 0
  | .vStr s => s == ""
  | .vObj o => o.isEmpty

/-- Models `d.get(k)`: the value bound to `k`, `None` when absent. -/
def Obj.get (o : Obj) (k : String) : Value :=
  match o.find? (fun p => p.1 == k) with
  | some p => p.2
  | none => .vNull

/-- Models `d.get(k, default)`. -/
def Obj.getD (o : Obj) (k : String) (dflt : Value) : Value :=
  match o.find? (fun p => p.1 == k) with
  | some p => p.2
  | none => dflt

/-- Models `k in d`. -/
def Obj.hasKey (o : Obj) (k : String) : Bool :=
  (o.find? (fun p => p.1 == k)).isSome

/-- ASCII upper-casing of one character (Python `str.upper` on the ASCII
data this repository holds). -/
def upperChar (c : Char) : Char :=
  if 97 ≤ c.toNat && c.toNat ≤ 122 then Char.ofNat (c.toNat - 32) else c

/-- Python `s.upper()`. -/
def pyUpper (s : String) : String := ⟨s.data.map upperChar⟩

/-- Python `s.replace(' ', '_')` (the only replacement the sources use). -/
def pyReplaceSpace (s : String) : String :=
  ⟨s.data.map (fun c => if c = ' ' then '_' else c)⟩

/-- Python `s.strip()`: whitespace removed from both ends. -/
def pyStrip (s : String) : String :=
  ⟨((s.data.dropWhile (·.isWhitespace)).reverse.dropWhile
      (·.isWhitespace)).reverse⟩

/-- Python `s.split(sep)` on a single-character separator. -/
def splitOnChar (sep : Char) : List Char → List (List Char)
  | [] => [[]]
  | c :: cs =>
      if c = sep then [] :: splitOnChar sep cs
      else
        match splitOnChar sep cs with
        | [] => [[c]]
        | h :: t => (c :: h) :: t

/-- Digits-only string to a natural number (`none` on a non-digit). -/
def decDigits? (l : List Char) : Option Nat :=
  if l.all (·.isDigit) then
    some (l.foldl (fun a c => a * 10 + (c.toNat - 48)) 0)
  else
    none

/-- Models `float(s)` on a plain decimal literal (optional sign, digits, optional
fractional part); other strings are a `ValueError`, modelled as `none`.
Exponent forms do not occur in the data this repository handles.  The value
is assembled with `mkRat` so that it evaluates by kernel reduction. -/
def parseDecimal (s : String) : Option ℚ :=
  let t := (pyStrip s).data
  let (sign, rest) :=
    match t with
    | '-' :: r => ((-1 : Int), r)
    | '+' :: r => ((1 : Int), r)
    | r => ((1 : Int), r)
  match splitOnChar '.' rest with
  | [a] =>
      if a.isEmpty then none
      else (decDigits? a).map (fun n => ((sign * (n : Int) : Int) : ℚ))
  | [a, b] =>
      if a.isEmpty && b.isEmpty then none
      else
        match decDigits? a, decDigits? b with
        | some na, some nb =>
            some (mkRat (sign * ((na : Int) * (10 : Int) ^ b.length + (nb : Int)))
              ((10 : Nat) ^ b.length))
        | _, _ => none
  | _ => none

/-- Models `float(v)`: numbers pass through, booleans become 0/1 (Python `bool` is a
subtype of `int`), decimal strings parse, everything else raises (`none`). -/
def pyFloat : Value → Option ℚ
  | .vNum q => some q
  | .vBool b => some (if b then 1 else 0)
  | .vStr s => parseDecimal s
  | .vNull => none
  | .vObj _ => none

/-- Models `float(v or 0)`: a falsy value short-circuits to `0` before conversion. -/
def pyFloatOr0 (v : Value) : Option ℚ :=
  if pyFalsy v then some 0 else pyFloat v

/-- Models `str(q)` for a number.  The source only ever reaches this on values that
are not compared in any theorem below; the rendering is a fixed deterministic
stand-in for Python's numeric `repr`. -/
def numRepr (q : ℚ) : String :=
  toString q.num ++ (if q.den == 1 then "" else "/" ++ toString q.den)

/-- Models `str(v)` on a truthy value. -/
def pyStr : Value → String
  | .vStr s => s
  | .vNull => "None"
  | .vBool b => if b then "True" else "False"
  | .vNum q => numRepr q
  | .vObj _ => "dict"

/-- Models `str(v or '')`: a falsy value short-circuits to the empty string. -/
def pyStrOr (v : Value) : String :=
  if pyFalsy v then "" else pyStr v

/-- Models `bool(v)`. -/
def pyBool (v : Value) : Bool := !pyFalsy v

/-- Models `isinstance(v, (int, float))`.  Python booleans are instances of `int`,
so they satisfy this test as well. -/
def isNumLike : Value → Bool
  | .vNum _ => true
  | .vBool _ => true
  | _ => false

/-- Models `abs(float(new) - float(cur)) > 0.0001` computed on the exact rationals
through their numerators and denominators, so that it evaluates by kernel
reduction.  `tolExceeded_eq_abs` identifies it with the textbook form. -/
def tolExceeded (a b : ℚ) : Bool :=
  decide (10000 * (a.num * (b.den : Int) - b.num * (a.den : Int)).natAbs >
    a.den * b.den)

/-- One field comparison from `BaseLoader.has_changes`
(`base_loader.py:587-600`): a numeric (or boolean) declared value is compared
with absolute tolerance `0.0001`, anything else by trimmed-string equality;
a failing `float(...)` conversion raises (`.error`).  The `isinstance(...,
bool)` arm of the source is kept although Python's `bool <: int` makes it
unreachable. -/
def fieldChanged (newV curV : Value) : Except Unit Bool :=
  if isNumLike newV then
    match pyFloatOr0 newV, pyFloatOr0 curV with
    | some a, some b => .ok (tolExceeded a b)
    | _, _ => .error ()
  else
    match newV with
    | .vBool b => .ok (b != pyBool curV)
    | _ => .ok (pyStrip (pyStrOr newV) != pyStrip (pyStrOr curV))

/-- The metadata fields `has_changes` skips (`base_loader.py:580`). -/
def metadataFields : List String := ["dateFormat", "locale", "id", "resourceId"]

/-- The field loop of `BaseLoader.has_changes`: first detected change returns
`true`, a raised conversion error aborts the loop. -/
def compareLoop (cur newData : Obj) : List String → Except Unit Bool
  | [] => .ok false
  | f :: rest =>
      if f ∈ metadataFields then compareLoop cur newData rest
      else
        match fieldChanged (newData.get f) (cur.get f) with
        | .error e => .error e
        | .ok true => .ok true
        | .ok false => compareLoop cur newData rest

/-- Models `compare_fields or list(new_data.keys())` (`base_loader.py:575`): an
absent or empty field list falls back to the keys of the new data. -/
def fieldsToCompare (newData : Obj) (compareFields : Option (List String)) :
    List String :=
  match compareFields with
  | some l => if l.isEmpty then newData.map (·.1) else l
  | none => newData.map (·.1)

/-- Models `BaseLoader.has_changes` (`base_loader.py:553-605`), with the live entity
fetched by `get_entity_by_id` passed in explicitly (`none` models a failed
by-ID read).  A missing or empty live entity, and any exception during the
comparison, yield `False`. -/
def has_changes (fetched : Option Obj) (newData : Obj)
    (compareFields : Option (List String)) : Bool :=
  match fetched with
  | none => false
  | some cur =>
      if cur.isEmpty then false
      else
        match compareLoop cur newData (fieldsToCompare newData compareFields) with
        | .ok b => b
        | .error _ => false

/-!
## The remote system and the transport layer

The Fineract server is external to the repository; it is modelled as the
idealized state the loaders' HTTP contract assumes (`spec.md` section 6):
`POST` stores the payload and answers `resourceId`, a listing filtered by
natural key returns the stored entities, a by-ID `GET` returns the stored
payload, `PUT` replaces it and answers a `changes` map.
-/
/-- Modelled remote state for one entity collection: stored entities keyed by
the server-assigned opaque integer ID. -/
structure Server where
  entities : List (Nat × Obj) := []
  nextId : Nat := 1
deriving Repr

/-- Server IDs already handed out are positive (the remote system numbers
entities from 1) and below `nextId`. -/
def Server.WF (s : Server) : Prop :=
  0 < s.nextId ∧ ∀ e ∈ s.entities, 0 < e.1 ∧ e.1 < s.nextId

/-- Models `if existing_id:` on the `Optional[int]` returned by `entity_exists`:
Python truthiness, so both `None` and the integer `0` mean "create". -/
def truthyId : Option Nat → Option Nat
  | some 0 => none
  | some (i + 1) => some (i + 1)
  | none => none

/-- Models `GET {endpoint}?name={name}` followed by `entities[0].get('id')`, the
existence check of `BaseLoader.entity_exists` (`base_loader.py:667-705`):
the ID of the first stored entity whose `name` field equals the key. -/
def Server.findByName (s : Server) (name : Value) : Option Nat :=
  (s.entities.find? (fun e => Value.beq (Obj.get e.2 "name") name)).map (·.1)

/-- Models `GET {endpoint}/{id}` (`BaseLoader.get_entity_by_id`). -/
def Server.getById (s : Server) (i : Nat) : Option Obj :=
  (s.entities.find? (fun e => e.1 == i)).map (·.2)

/-- A successful `POST`: store the payload under a fresh ID. -/
def Server.create (s : Server) (p : Obj) : Server × Nat :=
  ({ entities := s.entities ++ [(s.nextId, p)], nextId := s.nextId + 1 }, s.nextId)

/-- A successful `PUT {endpoint}/{id}`: replace the stored payload. -/
def Server.update (s : Server) (i : Nat) (p : Obj) : Server :=
  { s with entities := s.entities.map (fun e => if e.1 == i then (e.1, p) else e) }

/-- The dry-run stub returned by `BaseLoader.post` (`base_loader.py:480`). -/
def postDryRunStub : Obj := [("dryRun", .vBool true), ("resourceId", .vNum 0)]

/-- The dry-run stub returned by `BaseLoader.put` (`base_loader.py:515`). -/
def putDryRunStub : Obj := [("dryRun", .vBool true), ("changes", .vObj [])]

/-- Models `BaseLoader.post` (`base_loader.py:465-498`): in dry-run mode it returns
the fixed stub before any HTTP activity; otherwise the request is issued
against the modelled server.  The third component lists the HTTP requests the
call performed. -/
def BaseLoader.post (dryRun : Bool) (s : Server) (endpoint : String)
    (payload : Obj) : Server × Option Obj × List String :=
  if dryRun then (s, some postDryRunStub, [])
  else
    let (s2, rid) := s.create payload
    (s2, some [("resourceId", .vNum rid)], ["POST " ++ endpoint])

/-- Models `BaseLoader.put` (`base_loader.py:500-532`): in dry-run mode it returns
the fixed stub before any HTTP activity; otherwise the entity is replaced.
The third component lists the HTTP requests the call performed. -/
def BaseLoader.put (dryRun : Bool) (s : Server) (endpoint : String) (i : Nat)
    (payload : Obj) : Server × Option Obj × List String :=
  if dryRun then (s, some putDryRunStub, [])
  else (s.update i payload, some [("changes", .vObj [])], ["PUT " ++ endpoint])

/-!
## The charges reconciliation loop (`charges.py`)
-/
/-- One declared document as consumed by `ChargesLoader.load_all`: the file
name (used for failure reporting), the document `kind`, and its `spec`. -/
structure ChargeDoc where
  fileName : String
  kind : String
  spec : Obj
deriving Repr

/-- The mutable per-run state of a loader: the remote state it talks to plus
the four outcome trackers of `BaseLoader.__init__` (`base_loader.py:216-219`).
Created and updated entries record `(entity name, resource id)`. -/
structure ChargesRun where
  server : Server
  loaded : List (Value × Value) := []
  updated : List (Value × Nat) := []
  skipped : List (Value × Nat) := []
  failed : List String := []
deriving Repr

/-- Models `'resourceId' in response` then `response['resourceId']`. -/
def respResourceId (r : Obj) : Option Value :=
  if r.hasKey "resourceId" then some (r.get "resourceId") else none

/-- The body of the per-file loop of `ChargesLoader.load_all`
(`charges.py:168-222`): skip non-`Charge` documents, fail on a falsy name,
otherwise map the payload, existence-check by name, diff against the live
entity and update, skip, or create.  The payload mapper
(`yaml_to_fineract_api`) is passed in as a function, matching the dynamic
dispatch of the source. -/
def loadChargeDoc (dryRun : Bool) (toPayload : ChargeDoc → Obj)
    (st : ChargesRun) (doc : ChargeDoc) : ChargesRun :=
  if doc.kind != "Charge" then st
  else
    let name := doc.spec.get "name"
    if pyFalsy name then { st with failed := st.failed ++ [doc.fileName] }
    else
      let payload := toPayload doc
      match truthyId (st.server.findByName name) with
      | some i =>
          if has_changes (st.server.getById i) payload none then
            match BaseLoader.put dryRun st.server "/charges" i payload with
            | (s2, some r, _) =>
                if r.isEmpty then
                  { st with server := s2, failed := st.failed ++ [doc.fileName] }
                else
                  { st with server := s2, updated := st.updated ++ [(name, i)] }
            | (s2, none, _) =>
                { st with server := s2, failed := st.failed ++ [doc.fileName] }
          else { st with skipped := st.skipped ++ [(name, i)] }
      | none =>
          match BaseLoader.post dryRun st.server "charges" payload with
          | (s2, some r, _) =>
              match respResourceId r with
              | some rid =>
                  { st with server := s2, loaded := st.loaded ++ [(name, rid)] }
              | none =>
                  { st with server := s2, failed := st.failed ++ [doc.fileName] }
          | (s2, none, _) =>
              { st with server := s2, failed := st.failed ++ [doc.fileName] }

/-- Models `ChargesLoader.load_all` (`charges.py:151-224`) over an already-parsed
document list, starting from remote state `s0` and empty outcome trackers. -/
def chargesLoadAll (dryRun : Bool) (toPayload : ChargeDoc → Obj) (s0 : Server)
    (docs : List ChargeDoc) : ChargesRun :=
  docs.foldl (loadChargeDoc dryRun toPayload) { server := s0 }

/-!
## The charges payload mapper (`ChargesLoader.yaml_to_fineract_api`)
-/
/-- Models `normalize` from `charges.py:28-31`: a falsy value becomes the empty
string, a string is upper-cased with spaces turned into underscores; calling
`.upper()` on a truthy non-string raises (`.error`). -/
def chargesNormalize : Value → Except Unit String
  | v =>
      if pyFalsy v then .ok ""
      else
        match v with
        | .vStr s => .ok (pyReplaceSpace (pyUpper s))
        | _ => .error ()

/-- Models `charge_applies_to_map` (`charges.py:34-39`). -/
def chargeAppliesToMap : List (String × Nat) :=
  [("LOAN", 1), ("SAVINGS", 2), ("CLIENT", 3), ("SHARES", 4)]

/-- Models `charge_time_type_map` (`charges.py:42-58`). -/
def chargeTimeTypeMap : List (String × Nat) :=
  [("DISBURSEMENT", 1), ("SPECIFIED_DUE_DATE", 2), ("SAVINGS_ACTIVATION", 3),
   ("SAVINGS_CLOSURE", 4), ("WITHDRAWAL_FEE", 5), ("ANNUAL_FEE", 6),
   ("MONTHLY_FEE", 7), ("INSTALLMENT_FEE", 8), ("OVERDUE_INSTALLMENT", 9),
   ("OVERDRAFT_FEE", 10), ("WEEKLY_FEE", 11), ("TRANCHE_DISBURSEMENT", 12),
   ("SHAREACCOUNT_ACTIVATION", 13), ("SHARE_PURCHASE", 14), ("SHARE_REDEEM", 15)]

/-- Models `charge_calc_type_map` (`charges.py:61-67`). -/
def chargeCalcTypeMap : List (String × Nat) :=
  [("FLAT", 1), ("PERCENTAGE_OF_AMOUNT", 2),
   ("PERCENTAGE_OF_AMOUNT_AND_INTEREST", 3), ("PERCENTAGE_OF_INTEREST", 4),
   ("PERCENTAGE_OF_DISBURSEMENT_AMOUNT", 5)]

/-- Models `charge_payment_mode_map` (`charges.py:70-73`). -/
def chargePaymentModeMap : List (String × Nat) :=
  [("REGULAR", 0), ("ACCOUNT_TRANSFER", 1)]

/-- Models `table.get(key, default)` on one of the fixed enum tables. -/
def tableLookup (m : List (String × Nat)) (k : String) (dflt : Nat) : Nat :=
  ((m.find? (fun p => p.1 == k)).map (·.2)).getD dflt

/-- Models `int(v)`: truncation toward zero for a number, strict integer-literal
parse for a string, 0/1 for a boolean; anything else raises (`none`). -/
def pyInt : Value → Option Int
  | .vNum q => some (q.num.tdiv q.den)
  | .vBool b => some (if b then 1 else 0)
  | .vStr s =>
      let t := (pyStrip s).data
      let (sign, rest) :=
        match t with
        | '-' :: r => ((-1 : Int), r)
        | r => ((1 : Int), r)
      if rest.isEmpty then none
      else (decDigits? rest).map (fun n => sign * (n : Int))
  | _ => none

/-- Models `ChargesLoader.yaml_to_fineract_api` (`charges.py:15-125`): normalize the
four enum strings, look each up in its fixed table with `.get(key, default)`
(an unknown key silently falls back to the default code), build the payload,
and append the optional cap / fee / accounting fields.  GL-account and
tax-group resolution perform remote lookups in the source and are passed in
as resolver functions. -/
def chargesToPayload (glResolve taxResolve : Value → Option Nat)
    (spec : Obj) : Except Unit Obj := do
  let applies ← chargesNormalize (spec.getD "chargeAppliesTo" (.vStr "LOAN"))
  let timeT ← chargesNormalize (spec.getD "chargeTimeType" (.vStr "DISBURSEMENT"))
  let calcT ← chargesNormalize (spec.getD "chargeCalculationType" (.vStr "FLAT"))
  let pay ← chargesNormalize (spec.getD "chargePaymentMode" (.vStr "REGULAR"))
  let amount ←
    match pyFloat (spec.getD "amount" (.vNum 0)) with
    | some a => Except.ok a
    | none => Except.error ()
  let payload : Obj :=
    [("name", spec.get "name"),
     ("currencyCode", spec.getD "currency" (.vStr "XAF")),
     ("amount", .vNum amount),
     ("chargeAppliesTo", .vNum (tableLookup chargeAppliesToMap applies 1)),
     ("chargeTimeType", .vNum (tableLookup chargeTimeTypeMap timeT 1)),
     ("chargeCalculationType", .vNum (tableLookup chargeCalcTypeMap calcT 1)),
     ("chargePaymentMode", .vNum (tableLookup chargePaymentModeMap pay 0)),
     ("active", spec.getD "active" (.vBool true)),
     ("penalty", spec.getD "penalty" (.vBool false)),
     ("locale", .vStr "en"),
     ("monthDayFormat", .vStr "dd MMM")]
  let payload ←
    if spec.hasKey "minCap" then
      match pyFloat (spec.get "minCap") with
      | some a => Except.ok (payload ++ [("minCap", .vNum a)])
      | none => Except.error ()
    else Except.ok payload
  let payload ←
    if spec.hasKey "maxCap" then
      match pyFloat (spec.get "maxCap") with
      | some a => Except.ok (payload ++ [("maxCap", .vNum a)])
      | none => Except.error ()
    else Except.ok payload
  let payload :=
    if spec.hasKey "feeFrequency" then
      payload ++ [("feeFrequency", spec.get "feeFrequency")]
    else payload
  let payload ←
    if spec.hasKey "feeInterval" then
      match pyInt (spec.get "feeInterval") with
      | some n => Except.ok (payload ++ [("feeInterval", .vNum n)])
      | none => Except.error ()
    else Except.ok payload
  let payload :=
    if spec.hasKey "incomeAccount" then
      match glResolve (spec.get "incomeAccount") with
      | some i => payload ++ [("incomeAccountId", .vNum i)]
      | none => payload
    else payload
  let payload :=
    if spec.hasKey "taxGroup" then
      match taxResolve (spec.get "taxGroup") with
      | some i => payload ++ [("taxGroupId", .vNum i)]
      | none => payload
    else payload
  pure payload

/-!
## C1 — idempotence of the charges reconciliation loop
-/
/-- A declared entity is settled against a remote state when the existence
check finds it and the field diff reports no change: reconciling it again is
a skip. -/
def chargeSettled (tp : ChargeDoc → Obj) (s : Server) (doc : ChargeDoc) : Prop :=
  ∃ i, truthyId (s.findByName (doc.spec.get "name")) = some i ∧
    has_changes (s.getById i) (tp doc) none = false

/-!
## C6 — OAuth2 token lifecycle (`base_loader.py:203-261, 438-532`)

Wall-clock time (`time.time()`) and the token endpoint's response are passed
in explicitly; the HTTP answer of the API call is a parameter, so that the
behaviour on a 401 answer is expressible.
-/
/-- The OAuth2 fields of `BaseLoader`: `access_token` and `token_expiry`
(`base_loader.py:172-173`). -/
structure TokenState where
  accessToken : Option String
  tokenExpiry : Option ℚ
deriving Repr

/-- A token endpoint response: the `access_token` and the optional
`expires_in` (defaulted to 300 at `base_loader.py:240`). -/
structure TokenResp where
  token : String
  expiresIn : Option ℚ
deriving Repr

/-- Python truthiness of `self.access_token` (a string or `None`). -/
def truthyTok : Option String → Bool
  | none => false
  | some s => s != ""

/-- Python truthiness of `self.token_expiry` (a float or `None`). -/
def truthyExp : Option ℚ → Bool
  | none => false
  | some e => e != 0

/-- Models `BaseLoader._obtain_oauth2_token` (`base_loader.py:221-251`): store the
token and set the expiry to now plus the issued lifetime minus the 30-second
safety margin. -/
def obtainToken (now : ℚ) (resp : TokenResp) : TokenState :=
  { accessToken := some resp.token,
    tokenExpiry := some (now + resp.expiresIn.getD 300 - 30) }

/-- Models `BaseLoader._ensure_valid_token` (`base_loader.py:253-261`): when a token
and an expiry are set and the current time has reached the expiry, the token
is re-acquired (exactly one acquisition); otherwise nothing happens.  The
second component counts token acquisitions performed. -/
def ensureValidToken (now : ℚ) (st : TokenState) (resp : TokenResp) :
    TokenState × Nat :=
  if truthyTok st.accessToken && truthyExp st.tokenExpiry then
    if decide (st.tokenExpiry.getD 0 ≤ now) then (obtainToken now resp, 1)
    else (st, 0)
  else (st, 0)

/-- The HTTP outcome of one API request. -/
inductive HttpAnswer where
  | ok (body : Obj)
  | httpError (status : Nat)
deriving Repr

/-- What one `BaseLoader.get` call did: token acquisitions, requests sent,
and the value returned to the caller. -/
structure CallTrace where
  acquisitions : Nat
  requestsSent : Nat
  result : Option Obj
deriving Repr

/-- Models `BaseLoader.get` (`base_loader.py:438-463`): when a token is cached,
`_ensure_valid_token` runs first; then the request is sent exactly once.  Any
`HTTPError` — including 401 — is caught, logged and turned into `None`; there
is no token re-acquisition and no retry on a 401 answer.  (The urllib3 retry
adapter of `base_loader.py:204-212` retries only 429/500/502/503/504,
below this model.) -/
def loaderGet (now : ℚ) (st : TokenState) (tokResp : TokenResp)
    (answer : HttpAnswer) : TokenState × CallTrace :=
  let (st1, acq) :=
    if truthyTok st.accessToken then ensureValidToken now st tokResp
    else (st, 0)
  match answer with
  | .ok body => (st1, { acquisitions := acq, requestsSent := 1, result := some body })
  | .httpError _ => (st1, { acquisitions := acq, requestsSent := 1, result := none })

/-!
## C7 / C8 — drift detection (`detect_drift.py`)
-/
/-- A parsed declared document as the drift detector reads it: the `spec`
name and the `metadata` name (either may be missing, i.e. `None`). -/
structure DriftDoc where
  specName : Value
  metaName : Value
deriving Repr

/-- Models `yaml.get('spec', {}).get('name') or yaml.get('metadata', {}).get('name')`
(`detect_drift.py:288`). -/
def driftName (d : DriftDoc) : Value :=
  if pyFalsy d.specName then d.metaName else d.specName

/-- One drift finding (`type`, `name`, `drift_type`); the message and source
file of the source dicts carry no decision content. -/
structure Finding where
  ftype : String
  name : Value
  driftType : String
deriving Repr

/-- Insertion into a Python dict: an existing key keeps its position but
takes the new value, a new key is appended. -/
def dictInsert (m : List (Value × Obj)) (k : Value) (v : Obj) :
    List (Value × Obj) :=
  if (m.find? (fun p => Value.beq p.1 k)).isSome then
    m.map (fun p => if Value.beq p.1 k then (p.1, v) else p)
  else m ++ [(k, v)]

/-- Models `{o['name']: o for o in api_response}` (`detect_drift.py:284, 331`):
builds the by-name dict; a response entity without `name` raises
`KeyError`. -/
def buildApiDict (l : List Obj) : Except String (List (Value × Obj)) :=
  l.foldlM
    (fun m o =>
      if o.hasKey "name" then .ok (dictInsert m (o.get "name") o)
      else .error "KeyError: name")
    []

/-- Models `FineractDriftDetector.compare_offices` (`detect_drift.py:273-316`): a
failed or empty listing yields no findings; otherwise declared offices
missing remotely produce `missing_in_api` and remote offices missing from
the declarations produce `extra_in_api`.  No office field is compared. -/
def compare_offices (yamlOffices : List DriftDoc)
    (apiResponse : Option (List Obj)) : Except String (List Finding) :=
  match apiResponse with
  | none => .ok []
  | some apiList =>
      if apiList.isEmpty then .ok []
      else do
        let apiOffices ← buildApiDict apiList
        let findings := yamlOffices.foldl
          (fun acc d =>
            let nm := driftName d
            if pyFalsy nm then acc
            else if (apiOffices.find? (fun p => Value.beq p.1 nm)).isSome then acc
            else acc ++ [⟨"office", nm, "missing_in_api"⟩])
          []
        let yamlNames := (yamlOffices.map driftName).filter (fun v => !pyFalsy v)
        let findings := apiOffices.foldl
          (fun acc p =>
            if yamlNames.any (fun v => Value.beq v p.1) then acc
            else acc ++ [⟨"office", p.1, "extra_in_api"⟩])
          findings
        pure findings

/-- Models `FineractDriftDetector.compare_code_values` (`detect_drift.py:318-348`):
only the declared-to-remote direction is checked — a remote code absent from
the declarations produces no finding at all. -/
def compare_code_values (yamlCodes : List DriftDoc)
    (apiResponse : Option (List Obj)) : Except String (List Finding) :=
  match apiResponse with
  | none => .ok []
  | some apiList =>
      if apiList.isEmpty then .ok []
      else do
        let apiCodes ← buildApiDict apiList
        let findings := yamlCodes.foldl
          (fun acc d =>
            let nm := driftName d
            if pyFalsy nm then acc
            else if (apiCodes.find? (fun p => Value.beq p.1 nm)).isSome then acc
            else acc ++ [⟨"code_value", nm, "missing_in_api"⟩])
          []
        pure findings

/-- Alert-sink configuration read from the environment
(`detect_drift.py:84-91`). -/
structure AlertCfg where
  slackWebhook : Option String
  smtpHost : Option String
  emailFrom : Option String
  emailTo : Option String
deriving Repr

/-- The outcome of attempting one alert sink: the send either succeeds or
raises inside the `try` block. -/
inductive SinkOutcome where
  | delivered
  | raised
deriving Repr

/-- Models `FineractDriftDetector.send_slack_alert` (`detect_drift.py:410-439`):
skipped when no webhook is configured; an exception is caught and logged and
the function returns `False`.  Returns (attempted, return value). -/
def send_slack_alert (cfg : AlertCfg) (outcome : SinkOutcome) : Bool × Bool :=
  if !truthyTok cfg.slackWebhook then (false, false)
  else
    match outcome with
    | .delivered => (true, true)
    | .raised => (true, false)

/-- Models `FineractDriftDetector.send_email_alert` (`detect_drift.py:441-499`):
skipped unless host, from and to are all configured; an exception is caught
and logged and the function returns `False`. -/
def send_email_alert (cfg : AlertCfg) (outcome : SinkOutcome) : Bool × Bool :=
  if !(truthyTok cfg.smtpHost && truthyTok cfg.emailFrom &&
      truthyTok cfg.emailTo) then (false, false)
  else
    match outcome with
    | .delivered => (true, true)
    | .raised => (true, false)

/-- What the tail of `main` (`detect_drift.py:540-553`) did. -/
structure DriftMainResult where
  slackAttempted : Bool
  emailAttempted : Bool
  exitCode : Nat
deriving Repr

/-- The alerting and exit logic of `main` (`detect_drift.py:540-553`): both
sinks are invoked in sequence whenever findings exist and dry-run is off
(the sinks' return values are ignored), and the process exits 1 exactly when
at least one finding exists. -/
def driftMainFinish (findings : List Finding) (dryRun : Bool) (cfg : AlertCfg)
    (slackOut emailOut : SinkOutcome) : DriftMainResult :=
  let doAlerts := !findings.isEmpty && !dryRun
  let slack := if doAlerts then send_slack_alert cfg slackOut else (false, false)
  let email := if doAlerts then send_email_alert cfg emailOut else (false, false)
  { slackAttempted := slack.1,
    emailAttempted := email.1,
    exitCode := if findings.isEmpty then 0 else 1 }

/-!
## C4 / C5 — the offices loader (`offices.py`)
-/
/-- The remote offices collection: the listing `GET /offices` returns, with
the server-assigned `id` stored inside each office object. -/
structure OfficeServer where
  offices : List Obj := []
  nextId : Nat := 1
deriving Repr

/-- The message of the `AttributeError` raised at `offices.py:90`:
`OfficesLoader` never defines `self.logger` (the base class only has a
module-level logger), so `self.logger.warning(...)` raises before anything
is logged.  Python renders it as
`'OfficesLoader' object has no attribute 'logger'`. -/
def officesLoggerAttrError : String :=
  "OfficesLoader object has no attribute logger"

/-- Models `OfficesLoader._find_office_by_name` (`offices.py:98-108`). -/
def findOfficeByName (s : OfficeServer) (name : Value) : Option Obj :=
  s.offices.find? (fun o => Value.beq (o.get "name") name)

/-- Models `OfficesLoader._find_office_by_external_id` (`offices.py:110-120`). -/
def findOfficeByExternalId (s : OfficeServer) (eid : Value) : Option Obj :=
  s.offices.find? (fun o => Value.beq (o.get "externalId") eid)

/-- Python `v != "t"` between a JSON value and a string literal: only equal
strings compare equal. -/
def valueNeStr (v : Value) (t : String) : Bool :=
  match v with
  | .vStr s => s != t
  | _ => true

/-- Python `v == "t"`. -/
def valueEqStr (v : Value) (t : String) : Bool :=
  match v with
  | .vStr s => s == t
  | _ => false

/-- Models `strftime('%B')` month names. -/
def monthName : Nat → Option String
  | 1 => some "January" | 2 => some "February" | 3 => some "March"
  | 4 => some "April" | 5 => some "May" | 6 => some "June"
  | 7 => some "July" | 8 => some "August" | 9 => some "September"
  | 10 => some "October" | 11 => some "November" | 12 => some "December"
  | _ => none

/-- Models `datetime.strptime(s, '%Y-%m-%d').strftime('%d %B %Y')`
(`offices.py:79-81`): parse a `YYYY-MM-DD` string and render it as
`dd Month yyyy`; malformed input raises. -/
def formatOpeningDate : Value → Except String Value
  | .vStr s =>
      match splitOnChar '-' s.data with
      | [ys, ms, ds] =>
          match decDigits? ys, decDigits? ms, decDigits? ds with
          | some yy, some mm, some dd =>
              match monthName mm with
              | some mn =>
                  if 1 ≤ dd && dd ≤ 31 && !ys.isEmpty && !ms.isEmpty && !ds.isEmpty then
                    .ok (.vStr ((if dd < 10 then "0" ++ toString dd else toString dd)
                      ++ " " ++ mn ++ " " ++ toString yy))
                  else .error "ValueError: time data does not match format"
              | none => .error "ValueError: time data does not match format"
          | _, _, _ => .error "ValueError: time data does not match format"
      | _ => .error "ValueError: time data does not match format"
  | _ => .error "TypeError: strptime argument must be str"

/-- Models `OfficesLoader.yaml_to_fineract_api` (`offices.py:37-96`): base payload
with `dateFormat`/`locale`, optional `externalId` and converted
`openingDate`; when a truthy `parentOffice` other than `head-office` is
declared, its name is resolved against the live offices listing — if found
its `id` becomes `parentId`, and if NOT found the source hits
`self.logger.warning(...)`, which raises `AttributeError` because the class
has no `logger` attribute. -/
def officesYamlToApi (srv : OfficeServer) (spec : Obj) : Except String Obj := do
  let nameV ←
    if spec.hasKey "name" then Except.ok (spec.get "name")
    else Except.error "KeyError: name"
  let api : Obj :=
    [("name", nameV), ("dateFormat", .vStr "dd MMMM yyyy"),
     ("locale", .vStr "en")]
  let api :=
    if spec.hasKey "externalId" then api ++ [("externalId", spec.get "externalId")]
    else api
  let api ←
    if spec.hasKey "openingDate" then do
      let dv ← formatOpeningDate (spec.get "openingDate")
      Except.ok (api ++ [("openingDate", dv)])
    else Except.ok api
  if pyBool (spec.get "parentOffice") &&
      valueNeStr (spec.get "parentOffice") "head-office" then
    match findOfficeByName srv (spec.get "parentOffice") with
    | some off =>
        if off.hasKey "id" then Except.ok (api ++ [("parentId", off.get "id")])
        else Except.error "KeyError: id"
    | none => Except.error officesLoggerAttrError
  else Except.ok api

/-- Models `OfficesLoader.entity_exists` (`offices.py:122-140`): external ID first,
then name; returns the found office's `id` value. -/
def officesEntityExists (srv : OfficeServer) (spec : Obj) :
    Except String (Option Value) := do
  let r1 ←
    if spec.hasKey "externalId" then
      match findOfficeByExternalId srv (spec.get "externalId") with
      | some off =>
          if off.hasKey "id" then Except.ok (some (off.get "id"))
          else Except.error "KeyError: id"
      | none => Except.ok (none : Option Value)
    else Except.ok (none : Option Value)
  match r1 with
  | some idv => Except.ok (some idv)
  | none =>
      let nameV ←
        if spec.hasKey "name" then Except.ok (spec.get "name")
        else Except.error "KeyError: name"
      match findOfficeByName srv nameV with
      | some off =>
          if off.hasKey "id" then Except.ok (some (off.get "id"))
          else Except.error "KeyError: id"
      | none => Except.ok none

/-- Models `GET /offices/{id}` against the modelled listing. -/
def officeGetById (srv : OfficeServer) (idv : Value) : Option Obj :=
  srv.offices.find? (fun o => Value.beq (o.get "id") idv)

/-- A successful `PUT /offices/{id}`: payload fields override the stored
office. -/
def officePut (srv : OfficeServer) (idv : Value) (api : Obj) : OfficeServer :=
  { srv with
    offices := srv.offices.map (fun o =>
      if Value.beq (o.get "id") idv then
        api ++ o.filter (fun p => !api.hasKey p.1)
      else o) }

/-- A successful `POST /offices`: store the payload under a fresh id. -/
def officePost (srv : OfficeServer) (api : Obj) : OfficeServer × Nat :=
  ({ offices := srv.offices ++ [api ++ [("id", .vNum srv.nextId)]],
     nextId := srv.nextId + 1 }, srv.nextId)

/-- The value `OfficesLoader.load_single` returns (`offices.py:167-228`):
one of the strings `'success'`, `'updated'`, `'skipped'`, or an error
message. -/
inductive LoadRes where
  | success
  | updated
  | skipped
  | err (msg : String)
deriving Repr

/-- One office document as read from its file. -/
structure OfficeDoc where
  fileName : String
  fileStem : String
  spec : Obj
deriving Repr

/-- The per-run state of the offices loader (remote state plus the base
class's outcome trackers). -/
structure OfficesRun where
  server : OfficeServer
  loadedE : List Value := []
  updatedE : List Value := []
  skippedE : List Value := []
  failedFiles : List String := []
deriving Repr

/-- Models `OfficesLoader.load_single` (`offices.py:167-228`): map the payload,
existence-check, then update / skip / create; every exception inside is
caught, appends to `failed_entities` and returns `str(e)`. -/
def officesLoadSingle (st : OfficesRun) (d : OfficeDoc) :
    OfficesRun × LoadRes :=
  let entityName := d.spec.getD "name" (.vStr d.fileStem)
  match officesYamlToApi st.server d.spec with
  | .error e =>
      ({ st with failedFiles := st.failedFiles ++ [d.fileName] }, .err e)
  | .ok api =>
      if api.isEmpty then (st, .err "Failed to convert YAML to API format")
      else
        match officesEntityExists st.server d.spec with
        | .error e =>
            ({ st with failedFiles := st.failedFiles ++ [d.fileName] }, .err e)
        | .ok idOpt =>
            let existing :=
              match idOpt with
              | some idv => if pyFalsy idv then none else some idv
              | none => none
            match existing with
            | some idv =>
                if has_changes (officeGetById st.server idv) api none then
                  ({ st with server := officePut st.server idv api,
                             updatedE := st.updatedE ++ [entityName] }, .updated)
                else
                  ({ st with skippedE := st.skippedE ++ [entityName] }, .skipped)
            | none =>
                let (srv2, _) := officePost st.server api
                ({ st with server := srv2,
                           loadedE := st.loadedE ++ [entityName] }, .success)

/-- Models `p.isPrefixOf l` on character lists, structurally. -/
def listPrefixOf : List Char → List Char → Bool
  | [], _ => true
  | _ :: _, [] => false
  | a :: as, b :: bs => a == b && listPrefixOf as bs

/-- Substring test on character lists. -/
def listContainsSub (pat : List Char) : List Char → Bool
  | [] => pat.isEmpty
  | c :: rest => listPrefixOf pat (c :: rest) || listContainsSub pat rest

/-- Python `pat in s` for strings. -/
def strContainsSub (s pat : String) : Bool := listContainsSub pat.data s.data

/-- The retry classification of `OfficesLoader.load_all` (`offices.py:299`):
`'Parent office' in str(result) and 'not found' in str(result)`. -/
def isParentRetry : LoadRes → Bool
  | .err m => strContainsSub m "Parent office" && strContainsSub m "not found"
  | _ => false

/-- The `results` dict of `OfficesLoader.load_all` (`offices.py:242`). -/
structure OfficesResults where
  success : Nat := 0
  updated : Nat := 0
  failed : Nat := 0
  skipped : Nat := 0
  errors : List String := []
deriving Repr

/-- Outcome counting of the head-office loop (`offices.py:267-277`): no
retry classification there — any error message counts as failed. -/
def countHeadResult (fileName : String) (res : OfficesResults) :
    LoadRes → OfficesResults
  | .success => { res with success := res.success + 1 }
  | .updated => { res with updated := res.updated + 1 }
  | .skipped => { res with skipped := res.skipped + 1 }
  | .err m =>
      { res with failed := res.failed + 1,
                 errors := res.errors ++ [fileName ++ ": " ++ m] }

/-- One file of one branch pass (`offices.py:291-304`): count successes,
updates and skips; an error result whose message contains both
`Parent office` and `not found` is deferred into the still-remaining list,
any other error counts as failed. -/
def officesPassStep {σ : Type} (ls : σ → OfficeDoc → σ × LoadRes)
    (acc : σ × OfficesResults × List OfficeDoc) (d : OfficeDoc) :
    σ × OfficesResults × List OfficeDoc :=
  let (s2, r) := ls acc.1 d
  match r with
  | .success => (s2, { acc.2.1 with success := acc.2.1.success + 1 }, acc.2.2)
  | .updated => (s2, { acc.2.1 with updated := acc.2.1.updated + 1 }, acc.2.2)
  | .skipped => (s2, { acc.2.1 with skipped := acc.2.1.skipped + 1 }, acc.2.2)
  | .err m =>
      if strContainsSub m "Parent office" && strContainsSub m "not found" then
        (s2, acc.2.1, acc.2.2 ++ [d])
      else
        let resE := { acc.2.1 with
          failed := acc.2.1.failed + 1,
          errors := acc.2.1.errors ++ [d.fileName ++ ": " ++ m] }
        (s2, resE, acc.2.2)

/-- The branch-office pass loop of `OfficesLoader.load_all`
(`offices.py:279-314`), parameterized over the per-file `load_single` call
(matching the method dispatch of the source) and over the loader state it
threads.  `fuel` is the `range(max_passes)` bound (5 at the call site),
`passNum` the current 0-based pass index.  The extra `Nat` returned counts
the passes that actually processed files; a pass whose remaining list keeps
the same size marks every remaining file failed with a
`Parent office not found after N passes` error and stops. -/
def officesBranchPasses {σ : Type} (ls : σ → OfficeDoc → σ × LoadRes) :
    Nat → Nat → σ → OfficesResults → List OfficeDoc →
      σ × OfficesResults × Nat
  | 0, _, st, res, _ => (st, res, 0)
  | fuel + 1, passNum, st, res, remaining =>
      if remaining.isEmpty then (st, res, 0)
      else
        let step := remaining.foldl (officesPassStep ls) (st, res, ([] : List OfficeDoc))
        let st2 := step.1
        let res2 := step.2.1
        let still := step.2.2
        if still.length == remaining.length then
          let resF := { res2 with
            failed := res2.failed + still.length,
            errors := res2.errors ++ still.map (fun d =>
              d.fileName ++ ": Parent office not found after " ++
                toString (passNum + 1) ++ " passes") }
          (st2, resF, 1)
        else
          let next := officesBranchPasses ls fuel (passNum + 1) st2 res2 still
          (next.1, next.2.1, next.2.2 + 1)

/-- Models `spec.get('parentOffice')` is falsy or equals `'head-office'`
(`offices.py:258`). -/
def isHeadOffice (d : OfficeDoc) : Bool :=
  pyFalsy (d.spec.get "parentOffice") ||
    valueEqStr (d.spec.get "parentOffice") "head-office"

/-- Models `OfficesLoader.load_all` (`offices.py:230-319`): partition into head
offices and branches, load head offices first, then run the branch passes
with a pass budget of 5. -/
def officesLoadAll (docs : List OfficeDoc) (srv : OfficeServer) :
    OfficesRun × OfficesResults × Nat :=
  let headFiles := docs.filter isHeadOffice
  let branchFiles := docs.filter (fun d => !isHeadOffice d)
  let start := headFiles.foldl
    (fun (acc : OfficesRun × OfficesResults) d =>
      let (s2, r) := officesLoadSingle acc.1 d
      (s2, countHeadResult d.fileName acc.2 r))
    ({ server := srv }, {})
  officesBranchPasses officesLoadSingle 5 0 start.1 start.2 branchFiles

/-!
## Theorems
-/

mutual

theorem Value.beq_refl : ∀ (v : Value), Value.beq v v = true
  | .vNum _ => by simp [Value.beq]
  | .vBool _ => by simp [Value.beq]
  | .vStr _ => by simp [Value.beq]
  | .vNull => by simp [Value.beq]
  | .vObj l => by simpa [Value.beq] using Value.beqGo_refl l

theorem Value.beqGo_refl : ∀ (l : List (String × Value)), Value.beq.go l l = true
  | [] => by simp [Value.beq.go]
  | (_, v) :: t => by
      simpa [Value.beq.go] using And.intro (Value.beq_refl v) (Value.beqGo_refl t)

end

/-- Models `tolExceeded` is the strict epsilon comparison of the source
(`abs(float(new_value or 0) - float(current_value or 0)) > 0.0001`). -/
theorem tolExceeded_eq_abs (a b : ℚ) :
    tolExceeded a b = decide (|a - b| > (1 : ℚ) / 10000) := by
  have hda : ((a.den : ℚ)) ≠ 0 := by exact_mod_cast a.den_pos.ne'
  have hdb : ((b.den : ℚ)) ≠ 0 := by exact_mod_cast b.den_pos.ne'
  have hD : (0 : ℚ) < ((a.den * b.den : Nat) : ℚ) := by
    exact_mod_cast Nat.mul_pos a.den_pos b.den_pos
  have hsub : a - b =
      ((a.num * (b.den : Int) - b.num * (a.den : Int) : Int) : ℚ) /
        ((a.den * b.den : Nat) : ℚ) := by
    conv_lhs => rw [← Rat.num_div_den a, ← Rat.num_div_den b]
    rw [div_sub_div _ _ hda hdb]
    push_cast
    ring
  have hnum : |((a.num * (b.den : Int) - b.num * (a.den : Int) : Int) : ℚ)| =
      (((a.num * (b.den : Int) - b.num * (a.den : Int)).natAbs : ℚ)) := by
    rw [← Int.cast_abs, Int.abs_eq_natAbs, Int.cast_natCast]
  rw [Bool.eq_iff_iff]
  simp only [tolExceeded, decide_eq_true_eq, gt_iff_lt]
  rw [hsub, abs_div, abs_of_pos hD, hnum,
    div_lt_div_iff₀ (by norm_num) hD, one_mul,
    show (((a.num * (b.den : Int) - b.num * (a.den : Int)).natAbs : ℚ)) * 10000 =
      ((10000 * (a.num * (b.den : Int) - b.num * (a.den : Int)).natAbs : Nat) : ℚ) from by
      push_cast; ring,
    Nat.cast_lt]

/-!
## Helper lemmas about the field comparison
-/
theorem exceptBind_ok {α β ε : Type} (a : α) (f : α → Except ε β) :
    (Except.ok a >>= f : Except ε β) = f a := rfl

theorem pyFloatOr0_num (a : ℚ) : pyFloatOr0 (.vNum a) = some a := by
  by_cases h : a = 0 <;> simp [pyFloatOr0, pyFalsy, pyFloat, h]

theorem tolExceeded_self (a : ℚ) : tolExceeded a a = false := by
  simp [tolExceeded]

theorem fieldChanged_self (v : Value) : fieldChanged v v ≠ .ok true := by
  cases v with
  | vNum q => simp [fieldChanged, isNumLike, pyFloatOr0_num, tolExceeded_self]
  | vBool b =>
      cases b <;>
        simp [fieldChanged, isNumLike, pyFloatOr0, pyFalsy, pyFloat,
          tolExceeded_self]
  | vStr s => simp [fieldChanged, isNumLike]
  | vNull => simp [fieldChanged, isNumLike]
  | vObj o => simp [fieldChanged, isNumLike]

theorem compareLoop_self (p : Obj) (fs : List String) :
    compareLoop p p fs ≠ .ok true := by
  induction fs with
  | nil => simp [compareLoop]
  | cons f rest ih =>
      unfold compareLoop
      by_cases hm : f ∈ metadataFields
      · simpa [hm] using ih
      · simp only [hm, if_false]
        match hc : fieldChanged (Obj.get p f) (Obj.get p f) with
        | .error e => simp
        | .ok true => exact absurd hc (fieldChanged_self _)
        | .ok false => simpa using ih

/-- A payload never differs from itself: reading back exactly what was stored
yields no change. -/
theorem has_changes_self (p : Obj) (cf : Option (List String)) :
    has_changes (some p) p cf = false := by
  unfold has_changes
  by_cases he : p.isEmpty
  · simp [he]
  · simp only [he, if_false]
    match hc : compareLoop p p (fieldsToCompare p cf) with
    | .ok true => exact absurd hc (compareLoop_self _ _)
    | .ok false => simp
    | .error e => simp

/-- Models `has_changes` on a single numeric field that is numeric on both sides is
exactly the epsilon test. -/
theorem hasChanges_single_num (f : String) (a b : ℚ)
    (hf : f ∉ metadataFields) :
    has_changes (some [(f, .vNum b)]) [(f, .vNum a)] none = tolExceeded a b := by
  cases h : tolExceeded a b <;>
    simp [has_changes, fieldsToCompare, compareLoop, hf, Obj.get,
      fieldChanged, isNumLike, pyFloatOr0_num, h]

theorem pyStrOr_str_strip (s : String) :
    pyStrip (pyStrOr (.vStr s)) = pyStrip s := by
  by_cases h : s = "" <;> simp [pyStrOr, pyFalsy, pyStr, h]

/-- Models `has_changes` on a single string-valued field is trimmed-string
inequality. -/
theorem hasChanges_single_str (f : String) (s t : String)
    (hf : f ∉ metadataFields) :
    has_changes (some [(f, .vStr t)]) [(f, .vStr s)] none =
      (pyStrip s != pyStrip t) := by
  cases h : (pyStrip s != pyStrip t) <;>
    simp [has_changes, fieldsToCompare, compareLoop, hf, Obj.get,
      fieldChanged, isNumLike, pyStrOr_str_strip, h]

/-- Models `has_changes` never looks at a metadata field. -/
theorem hasChanges_metadata_skipped (g : String) (vN vC : Value)
    (hg : g ∈ metadataFields) :
    has_changes (some [(g, vC)]) [(g, vN)] none = false := by
  simp [has_changes, fieldsToCompare, compareLoop, hg]

/-!
## C2 — field-level change-detection semantics
-/
/-- C2 (counterexample): a numeric field differing from the remote value by
exactly the epsilon `0.0001` (declared `1` against remote `1.0001`) is
classified unchanged, because `abs(...) > 0.0001` at `base_loader.py:589` is
strict; the claim says a difference at or above the epsilon yields
`updated`. -/
theorem C2_epsilon_boundary_cex :
    |(1 : ℚ) - mkRat 10001 10000| ≥ (1 : ℚ) / 10000 ∧
      has_changes (some [("amount", .vNum (mkRat 10001 10000))])
        [("amount", .vNum 1)] none = false := by
  constructor
  · rw [Rat.mkRat_eq_div]
    norm_num
    exact le_abs_self _
  · rw [hasChanges_single_num "amount" 1 (mkRat 10001 10000) (by decide)]
    decide

/-- C2 (amended): change detection compares only the payload's fields and
never the metadata fields `id`, `locale`, `dateFormat`; a numeric field whose
absolute difference from the remote value is strictly below — or exactly
at — the epsilon `0.0001` counts as equal and yields `skipped-unchanged`,
while a difference strictly above the epsilon yields a change (`updated`);
non-numeric fields are compared as strings after trimming. -/
theorem C2_field_comparison_semantics (f : String) (a b : ℚ) (s t : String)
    (hf : f ∉ metadataFields) :
    has_changes (some [(f, .vNum b)]) [(f, .vNum a)] none =
        decide (|a - b| > (1 : ℚ) / 10000) ∧
      has_changes (some [(f, .vStr t)]) [(f, .vStr s)] none =
        (pyStrip s != pyStrip t) ∧
      ∀ g ∈ (["dateFormat", "locale", "id"] : List String), ∀ vN vC : Value,
        has_changes (some [(g, vC)]) [(g, vN)] none = false := by
  refine ⟨?_, ?_, ?_⟩
  · rw [hasChanges_single_num f a b hf, tolExceeded_eq_abs]
  · exact hasChanges_single_str f s t hf
  · intro g hg vN vC
    apply hasChanges_metadata_skipped
    simp only [metadataFields]
    simp only [List.mem_cons, List.not_mem_nil, or_false] at hg ⊢
    tauto

/-- Witness for `C2_field_comparison_semantics` at the field `"amount"`. -/
theorem C2_field_comparison_semantics_witness :
    has_changes (some [("amount", .vNum 3)]) [("amount", .vNum 5)] none =
        decide (|(5 : ℚ) - 3| > (1 : ℚ) / 10000) ∧
      has_changes (some [("amount", .vStr "b")]) [("amount", .vStr "a")] none =
        (pyStrip "a" != pyStrip "b") ∧
      ∀ g ∈ (["dateFormat", "locale", "id"] : List String), ∀ vN vC : Value,
        has_changes (some [(g, vC)]) [(g, vN)] none = false :=
  C2_field_comparison_semantics "amount" 5 3 "a" "b" (by decide)

/-!
## C3 — unknown enum strings in the charges mapper
-/
/-- C3 (counterexample): a charge whose `chargeAppliesTo` is the unknown
string `"Bogus Thing"` maps without any error to the default numeric code
`1` (`charge_applies_to_map.get(applies_to, 1)` at `charges.py:87`): the
unknown enum value is silently replaced by a default, not rejected with a
mapping error. -/
theorem C3_unknown_enum_defaulted_cex :
    chargeAppliesToMap.find? (fun p => p.1 == "BOGUS_THING") = none ∧
      chargesToPayload (fun _ => none) (fun _ => none)
        [("name", .vStr "Late Fee"), ("amount", .vNum 25),
         ("chargeAppliesTo", .vStr "Bogus Thing")] =
      .ok [("name", .vStr "Late Fee"),
           ("currencyCode", .vStr "XAF"),
           ("amount", .vNum 25),
           ("chargeAppliesTo", .vNum 1),
           ("chargeTimeType", .vNum 1),
           ("chargeCalculationType", .vNum 1),
           ("chargePaymentMode", .vNum 0),
           ("active", .vBool true),
           ("penalty", .vBool false),
           ("locale", .vStr "en"),
           ("monthDayFormat", .vStr "dd MMM")] :=
  ⟨rfl, rfl⟩

/-- C3 (amended): an enum string that normalizes to a key outside the fixed
per-kind lookup table is silently mapped to the default numeric code (1 for
`chargeAppliesTo`, `chargeTimeType` and `chargeCalculationType`, 0 for
`chargePaymentMode`); payload mapping succeeds rather than producing a
mapping error. -/
theorem C3_unknown_enum_defaults (glR taxR : Value → Option Nat) (spec : Obj)
    (a t c m : String) (amt : ℚ)
    (hA : chargesNormalize (spec.getD "chargeAppliesTo" (.vStr "LOAN")) = .ok a)
    (hT : chargesNormalize (spec.getD "chargeTimeType" (.vStr "DISBURSEMENT")) = .ok t)
    (hC : chargesNormalize (spec.getD "chargeCalculationType" (.vStr "FLAT")) = .ok c)
    (hM : chargesNormalize (spec.getD "chargePaymentMode" (.vStr "REGULAR")) = .ok m)
    (hamt : pyFloat (spec.getD "amount" (.vNum 0)) = some amt)
    (hmin : spec.hasKey "minCap" = false) (hmax : spec.hasKey "maxCap" = false)
    (hff : spec.hasKey "feeFrequency" = false)
    (hfi : spec.hasKey "feeInterval" = false)
    (hia : spec.hasKey "incomeAccount" = false)
    (htg : spec.hasKey "taxGroup" = false)
    (ha2 : chargeAppliesToMap.find? (fun p => p.1 == a) = none)
    (ht2 : chargeTimeTypeMap.find? (fun p => p.1 == t) = none)
    (hc2 : chargeCalcTypeMap.find? (fun p => p.1 == c) = none)
    (hm2 : chargePaymentModeMap.find? (fun p => p.1 == m) = none) :
    chargesToPayload glR taxR spec =
      .ok [("name", spec.get "name"),
           ("currencyCode", spec.getD "currency" (.vStr "XAF")),
           ("amount", .vNum amt),
           ("chargeAppliesTo", .vNum 1),
           ("chargeTimeType", .vNum 1),
           ("chargeCalculationType", .vNum 1),
           ("chargePaymentMode", .vNum 0),
           ("active", spec.getD "active" (.vBool true)),
           ("penalty", spec.getD "penalty" (.vBool false)),
           ("locale", .vStr "en"),
           ("monthDayFormat", .vStr "dd MMM")] := by
  simp [chargesToPayload, hA, hT, hC, hM, hamt, hmin, hmax, hff, hfi, hia,
    htg, tableLookup, ha2, ht2, hc2, hm2, exceptBind_ok]

/-- Witness for `C3_unknown_enum_defaults` on a spec whose four enum strings
are all unknown. -/
theorem C3_unknown_enum_defaults_witness :
    chargesToPayload (fun _ => none) (fun _ => none)
      [("chargeAppliesTo", .vStr "Zz1"), ("chargeTimeType", .vStr "Zz2"),
       ("chargeCalculationType", .vStr "Zz3"),
       ("chargePaymentMode", .vStr "Zz4")] =
      .ok [("name", .vNull),
           ("currencyCode", .vStr "XAF"),
           ("amount", .vNum 0),
           ("chargeAppliesTo", .vNum 1),
           ("chargeTimeType", .vNum 1),
           ("chargeCalculationType", .vNum 1),
           ("chargePaymentMode", .vNum 0),
           ("active", .vBool true),
           ("penalty", .vBool false),
           ("locale", .vStr "en"),
           ("monthDayFormat", .vStr "dd MMM")] :=
  C3_unknown_enum_defaults (fun _ => none) (fun _ => none) _
    "ZZ1" "ZZ2" "ZZ3" "ZZ4" 0
    rfl rfl rfl rfl rfl rfl rfl rfl rfl rfl rfl rfl rfl rfl rfl

/-!
## C9 — comparison failures yield skipped-unchanged
-/
/-- C9: if the live entity cannot be fetched for comparison (the by-ID read
returns no data, or an empty object) or the field comparison raises, then
`has_changes` returns `False`; consequently the charges loop classifies the
entity as skipped-unchanged and issues no update call, leaving all state
except the skip tracker unchanged. -/
theorem C9_fetch_failure_skips (p : Obj) (cf : Option (List String))
    (cur : Obj)
    (hexc : compareLoop cur p (fieldsToCompare p cf) = .error ()) :
    has_changes none p cf = false ∧
      has_changes (some []) p cf = false ∧
      has_changes (some cur) p cf = false ∧
      ∀ (dryRun : Bool) (toPayload : ChargeDoc → Obj) (st : ChargesRun)
        (doc : ChargeDoc) (i : Nat),
        doc.kind = "Charge" →
        pyFalsy (doc.spec.get "name") = false →
        truthyId (st.server.findByName (doc.spec.get "name")) = some i →
        has_changes (st.server.getById i) (toPayload doc) none = false →
        loadChargeDoc dryRun toPayload st doc =
          { st with skipped := st.skipped ++ [(doc.spec.get "name", i)] } := by
  refine ⟨rfl, rfl, ?_, ?_⟩
  · unfold has_changes
    by_cases he : cur.isEmpty
    · simp [he]
    · simp [he, hexc]
  · intro dryRun toPayload st doc i hkind hname hfind hnc
    unfold loadChargeDoc
    rw [if_neg (by simp [hkind]), if_neg (by simp [hname]), hfind]
    simp [hnc]

/-- Witness for `C9_fetch_failure_skips`: the remote charge stores the
non-numeric string `"abc"` in a field the payload declares as the number `5`,
so the comparison raises (`float("abc")` is a `ValueError`) and the charge is
skipped. -/
theorem C9_fetch_failure_skips_witness :
    has_changes none [("amount", .vNum 5)] none = false ∧
      has_changes (some []) [("amount", .vNum 5)] none = false ∧
      has_changes (some [("name", .vStr "Fee"), ("amount", .vStr "abc")])
        [("amount", .vNum 5)] none = false ∧
      ∀ (dryRun : Bool) (toPayload : ChargeDoc → Obj) (st : ChargesRun)
        (doc : ChargeDoc) (i : Nat),
        doc.kind = "Charge" →
        pyFalsy (doc.spec.get "name") = false →
        truthyId (st.server.findByName (doc.spec.get "name")) = some i →
        has_changes (st.server.getById i) (toPayload doc) none = false →
        loadChargeDoc dryRun toPayload st doc =
          { st with skipped := st.skipped ++ [(doc.spec.get "name", i)] } :=
  C9_fetch_failure_skips [("amount", .vNum 5)] none
    [("name", .vStr "Fee"), ("amount", .vStr "abc")] rfl

/-!
## C10 — dry-run performs no mutation
-/
/-- C10: with `dry_run` enabled, `post` and `put` issue no HTTP request and
leave the remote state unchanged, returning the fixed stubs
`{"dryRun": True, "resourceId": 0}` and `{"dryRun": True, "changes": {}}`;
consequently the charges loop records a not-yet-existing entity as created
with resource ID `0` while the remote state stays untouched. -/
theorem C10_dry_run_no_mutation :
    (∀ (s : Server) (e : String) (p : Obj),
        BaseLoader.post true s e p =
          (s, some [("dryRun", .vBool true), ("resourceId", .vNum 0)], [])) ∧
      (∀ (s : Server) (e : String) (i : Nat) (p : Obj),
        BaseLoader.put true s e i p =
          (s, some [("dryRun", .vBool true), ("changes", .vObj [])], [])) ∧
      ∀ (toPayload : ChargeDoc → Obj) (st : ChargesRun) (doc : ChargeDoc),
        doc.kind = "Charge" →
        pyFalsy (doc.spec.get "name") = false →
        truthyId (st.server.findByName (doc.spec.get "name")) = none →
        loadChargeDoc true toPayload st doc =
          { st with loaded := st.loaded ++ [(doc.spec.get "name", .vNum 0)] } := by
  refine ⟨fun s e p => rfl, fun s e i p => rfl, ?_⟩
  intro toPayload st doc hkind hname hfind
  unfold loadChargeDoc
  rw [if_neg (by simp [hkind]), if_neg (by simp [hname]), hfind]
  rfl

/-- Witness for `C10_dry_run_no_mutation`: a dry run over one declared charge
against an empty remote reports it created with resource ID 0 and leaves the
remote state empty. -/
theorem C10_dry_run_no_mutation_witness :
    loadChargeDoc true (fun _ => [("name", .vStr "Fee")])
        { server := { entities := [], nextId := 1 } }
        ⟨"fee.yaml", "Charge", [("name", .vStr "Fee")]⟩ =
      { server := { entities := [], nextId := 1 },
        loaded := [(.vStr "Fee", .vNum 0)] } :=
  (C10_dry_run_no_mutation.2.2 (fun _ => [("name", .vStr "Fee")])
    { server := { entities := [], nextId := 1 } }
    ⟨"fee.yaml", "Charge", [("name", .vStr "Fee")]⟩ rfl rfl rfl)

theorem find?_append_some {α : Type} (p : α → Bool) (l1 l2 : List α) (x : α)
    (h : List.find? p l1 = some x) : List.find? p (l1 ++ l2) = some x := by
  rw [List.find?_append, h]; rfl

theorem find?_append_none {α : Type} (p : α → Bool) (l1 l2 : List α)
    (h : List.find? p l1 = none) :
    List.find? p (l1 ++ l2) = List.find? p l2 := by
  rw [List.find?_append, h]; rfl

theorem Server.WF_create (s : Server) (p : Obj) (h : s.WF) :
    (s.create p).1.WF := by
  obtain ⟨hpos, hlt⟩ := h
  refine ⟨Nat.lt_succ_of_lt hpos, ?_⟩
  intro e he
  simp only [Server.create, List.mem_append, List.mem_singleton] at he
  rcases he with he | he
  · exact ⟨(hlt e he).1, Nat.lt_succ_of_lt (hlt e he).2⟩
  · subst he; exact ⟨hpos, Nat.lt_succ_self _⟩

theorem Server.findByName_create_of_found (s : Server) (p : Obj) (n : Value)
    (i : Nat) (h : s.findByName n = some i) :
    (s.create p).1.findByName n = some i := by
  unfold Server.findByName at h ⊢
  cases hf : List.find? (fun e => Value.beq (Obj.get e.2 "name") n) s.entities with
  | none => rw [hf] at h; simp at h
  | some e =>
      rw [hf] at h
      show (List.find? _ (s.entities ++ [(s.nextId, p)])).map _ = some i
      rw [find?_append_some _ _ _ _ hf]
      exact h

theorem Server.getById_create_of_some (s : Server) (p : Obj) (i : Nat)
    (o : Obj) (h : s.getById i = some o) : (s.create p).1.getById i = some o := by
  unfold Server.getById at h ⊢
  cases hf : List.find? (fun e => e.1 == i) s.entities with
  | none => rw [hf] at h; simp at h
  | some e =>
      rw [hf] at h
      show (List.find? _ (s.entities ++ [(s.nextId, p)])).map _ = some o
      rw [find?_append_some _ _ _ _ hf]
      exact h

theorem Server.getById_isSome_of_findByName (s : Server) (n : Value) (i : Nat)
    (h : s.findByName n = some i) : ∃ o, s.getById i = some o := by
  unfold Server.findByName at h
  cases hf : List.find? (fun e => Value.beq (Obj.get e.2 "name") n) s.entities with
  | none => rw [hf] at h; simp at h
  | some e =>
      rw [hf] at h
      simp at h
      have he : e ∈ s.entities := List.mem_of_find?_eq_some hf
      have hsome : (List.find? (fun e2 => e2.1 == i) s.entities).isSome := by
        rw [List.find?_isSome]
        exact ⟨e, he, by simp [h]⟩
      cases hg : List.find? (fun e2 => e2.1 == i) s.entities with
      | none => rw [hg] at hsome; simp at hsome
      | some e2 => exact ⟨e2.2, by unfold Server.getById; rw [hg]; rfl⟩

theorem Server.findByName_create_new (s : Server) (p : Obj) (n : Value)
    (hnone : s.findByName n = none)
    (hpn : Obj.get p "name" = n) :
    (s.create p).1.findByName n = some s.nextId := by
  unfold Server.findByName at hnone ⊢
  cases hf : List.find? (fun e => Value.beq (Obj.get e.2 "name") n) s.entities with
  | some e => rw [hf] at hnone; simp at hnone
  | none =>
      show (List.find? _ (s.entities ++ [(s.nextId, p)])).map _ = some s.nextId
      rw [find?_append_none _ _ _ hf]
      rw [List.find?_cons_of_pos _ (by simp [hpn, Value.beq_refl])]
      rfl

theorem Server.getById_create_new (s : Server) (p : Obj) (hwf : s.WF) :
    (s.create p).1.getById s.nextId = some p := by
  unfold Server.getById
  have hf : List.find? (fun e2 => e2.1 == s.nextId) s.entities = none := by
    rw [List.find?_eq_none]
    intro e he
    exact fun h2 => Nat.ne_of_lt (hwf.2 e he).2 (eq_of_beq h2)
  show (List.find? _ (s.entities ++ [(s.nextId, p)])).map _ = some p
  rw [find?_append_none _ _ _ hf]
  rw [List.find?_cons_of_pos _ (by exact beq_self_eq_true _)]
  rfl

theorem chargeSettled_create (tp : ChargeDoc → Obj) (s : Server) (p : Obj)
    (d : ChargeDoc) (h : chargeSettled tp s d) :
    chargeSettled tp (s.create p).1 d := by
  obtain ⟨i, hfind, hnc⟩ := h
  cases hraw : s.findByName (d.spec.get "name") with
  | none => rw [hraw] at hfind; simp [truthyId] at hfind
  | some j =>
      rw [hraw] at hfind
      have hji : j = i := by
        cases j with
        | zero => simp [truthyId] at hfind
        | succ k => simpa [truthyId] using hfind
      subst hji
      obtain ⟨o, ho⟩ := Server.getById_isSome_of_findByName s _ j hraw
      refine ⟨j, ?_, ?_⟩
      · rw [Server.findByName_create_of_found s p _ j hraw]
        exact hfind
      · rw [Server.getById_create_of_some s p j o ho]
        rw [ho] at hnc
        exact hnc

theorem loadChargeDoc_not_charge (d : Bool) (tp : ChargeDoc → Obj)
    (st : ChargesRun) (doc : ChargeDoc) (hk : ¬doc.kind = "Charge") :
    loadChargeDoc d tp st doc = st := by
  unfold loadChargeDoc
  rw [if_pos (by simp [hk])]

theorem loadChargeDoc_falsy_name (d : Bool) (tp : ChargeDoc → Obj)
    (st : ChargesRun) (doc : ChargeDoc) (hk : doc.kind = "Charge")
    (hn : pyFalsy (doc.spec.get "name") = true) :
    loadChargeDoc d tp st doc = { st with failed := st.failed ++ [doc.fileName] } := by
  unfold loadChargeDoc
  rw [if_neg (by simp [hk]), if_pos hn]

theorem loadChargeDoc_update (tp : ChargeDoc → Obj) (st : ChargesRun)
    (doc : ChargeDoc) (i : Nat) (hk : doc.kind = "Charge")
    (hn : pyFalsy (doc.spec.get "name") = false)
    (hfind : truthyId (st.server.findByName (doc.spec.get "name")) = some i)
    (hch : has_changes (st.server.getById i) (tp doc) none = true) :
    loadChargeDoc false tp st doc =
      { st with server := st.server.update i (tp doc),
                updated := st.updated ++ [(doc.spec.get "name", i)] } := by
  unfold loadChargeDoc
  rw [if_neg (by simp [hk]), if_neg (by simp [hn]), hfind]
  simp [hch, BaseLoader.put]

theorem loadChargeDoc_create (tp : ChargeDoc → Obj) (st : ChargesRun)
    (doc : ChargeDoc) (hk : doc.kind = "Charge")
    (hn : pyFalsy (doc.spec.get "name") = false)
    (hfind : truthyId (st.server.findByName (doc.spec.get "name")) = none) :
    loadChargeDoc false tp st doc =
      { st with server := (st.server.create (tp doc)).1,
                loaded := st.loaded ++
                  [(doc.spec.get "name", .vNum st.server.nextId)] } := by
  unfold loadChargeDoc
  rw [if_neg (by simp [hk]), if_neg (by simp [hn]), hfind]
  simp [BaseLoader.post, Server.create, respResourceId, Obj.hasKey, Obj.get,
    List.find?_cons_of_pos]

/-- Every step appends to the outcome trackers; nothing is ever removed. -/
theorem loadChargeDoc_deltas (d : Bool) (tp : ChargeDoc → Obj)
    (st : ChargesRun) (doc : ChargeDoc) :
    (∃ u, (loadChargeDoc d tp st doc).updated = st.updated ++ u) ∧
      (∃ f2, (loadChargeDoc d tp st doc).failed = st.failed ++ f2) := by
  unfold loadChargeDoc
  dsimp only
  repeat' split
  all_goals
    constructor
  all_goals
    first
      | exact ⟨[], (List.append_nil _).symm⟩
      | exact ⟨_, rfl⟩

theorem foldl_deltas (d : Bool) (tp : ChargeDoc → Obj) :
    ∀ (docs : List ChargeDoc) (st : ChargesRun),
      (∃ u, (List.foldl (loadChargeDoc d tp) st docs).updated = st.updated ++ u) ∧
        (∃ f2, (List.foldl (loadChargeDoc d tp) st docs).failed = st.failed ++ f2)
  | [], st => ⟨⟨[], (List.append_nil _).symm⟩, ⟨[], (List.append_nil _).symm⟩⟩
  | doc :: rest, st => by
      obtain ⟨⟨u1, hu1⟩, ⟨f1, hf1⟩⟩ := loadChargeDoc_deltas d tp st doc
      obtain ⟨⟨u2, hu2⟩, ⟨f2, hf2⟩⟩ := foldl_deltas d tp rest (loadChargeDoc d tp st doc)
      exact ⟨⟨u1 ++ u2, by simp [hu2, hu1]⟩, ⟨f1 ++ f2, by simp [hf2, hf1]⟩⟩

theorem append_append_self {α : Type} (l u v : List α) (h : l ++ u ++ v = l) :
    u = [] ∧ v = [] := by
  have hlen := congrArg List.length h
  simp only [List.length_append] at hlen
  constructor
  · exact List.eq_nil_of_length_eq_zero (by omega)
  · exact List.eq_nil_of_length_eq_zero (by omega)

theorem Server.findByName_mem (s : Server) (n : Value) (i : Nat)
    (h : s.findByName n = some i) : ∃ e ∈ s.entities, e.1 = i := by
  unfold Server.findByName at h
  cases hf : List.find? (fun e => Value.beq (Obj.get e.2 "name") n) s.entities with
  | none => rw [hf] at h; simp at h
  | some e =>
      rw [hf] at h
      simp at h
      exact ⟨e, List.mem_of_find?_eq_some hf, h⟩

theorem loadChargeDoc_skip (d : Bool) (tp : ChargeDoc → Obj) (st : ChargesRun)
    (doc : ChargeDoc) (i : Nat) (hk : doc.kind = "Charge")
    (hn : pyFalsy (doc.spec.get "name") = false)
    (hfind : truthyId (st.server.findByName (doc.spec.get "name")) = some i)
    (hch : has_changes (st.server.getById i) (tp doc) none = false) :
    loadChargeDoc d tp st doc =
      { st with skipped := st.skipped ++ [(doc.spec.get "name", i)] } := by
  unfold loadChargeDoc
  rw [if_neg (by simp [hk]), if_neg (by simp [hn]), hfind]
  simp [hch]

/-- Analysis of one loop iteration of a run that produced no `updated` and no
`failed` outcome: the remote state stays well-formed, already-settled
entities stay settled, and the processed document (if it is a `Charge`) has a
truthy name and is settled afterwards. -/
theorem chargeStep_preserves (tp : ChargeDoc → Obj)
    (hname : ∀ dd, Obj.get (tp dd) "name" = Obj.get dd.spec "name")
    (st : ChargesRun) (doc : ChargeDoc) (hwf : st.server.WF)
    (hu : (loadChargeDoc false tp st doc).updated = st.updated)
    (hf : (loadChargeDoc false tp st doc).failed = st.failed) :
    (loadChargeDoc false tp st doc).server.WF ∧
      (∀ d2, chargeSettled tp st.server d2 →
        chargeSettled tp (loadChargeDoc false tp st doc).server d2) ∧
      (doc.kind = "Charge" →
        pyFalsy (doc.spec.get "name") = false ∧
        chargeSettled tp (loadChargeDoc false tp st doc).server doc) := by
  by_cases hk : doc.kind = "Charge"
  case neg =>
    rw [loadChargeDoc_not_charge false tp st doc hk] at *
    exact ⟨hwf, fun d2 h => h, fun h => absurd h hk⟩
  case pos =>
    by_cases hn : pyFalsy (doc.spec.get "name") = true
    · exfalso
      rw [loadChargeDoc_falsy_name false tp st doc hk hn] at hf
      simp at hf
    · replace hn : pyFalsy (doc.spec.get "name") = false := by
        simpa using hn
      cases hfind : truthyId (st.server.findByName (doc.spec.get "name")) with
      | some i =>
          cases hch : has_changes (st.server.getById i) (tp doc) none with
          | true =>
              exfalso
              rw [loadChargeDoc_update tp st doc i hk hn hfind hch] at hu
              simp at hu
          | false =>
              rw [loadChargeDoc_skip false tp st doc i hk hn hfind hch]
              exact ⟨hwf, fun d2 h => h, fun _ => ⟨hn, ⟨i, hfind, hch⟩⟩⟩
      | none =>
          have heq := loadChargeDoc_create tp st doc hk hn hfind
          rw [heq]
          refine ⟨Server.WF_create _ _ hwf, ?_, ?_⟩
          · intro d2 h
            exact chargeSettled_create tp st.server (tp doc) d2 h
          · intro _
            refine ⟨hn, st.server.nextId, ?_, ?_⟩
            · have hraw : st.server.findByName (doc.spec.get "name") = none := by
                cases hr : st.server.findByName (doc.spec.get "name") with
                | none => rfl
                | some j =>
                    rw [hr] at hfind
                    cases j with
                    | zero =>
                        exfalso
                        obtain ⟨e, he, he0⟩ :=
                          Server.findByName_mem st.server _ 0 hr
                        exact absurd (he0 ▸ (hwf.2 e he).1) (by simp)
                    | succ k => simp [truthyId] at hfind
              rw [Server.findByName_create_new st.server (tp doc)
                (doc.spec.get "name") hraw (hname doc)]
              cases hni : st.server.nextId with
              | zero => exact absurd (hni ▸ hwf.1) (by simp)
              | succ k => simp [truthyId]
            · rw [Server.getById_create_new st.server (tp doc) hwf]
              exact has_changes_self (tp doc) none

/-- After a run that produced no `updated` and no `failed` outcome, the final
remote state is well-formed and every processed `Charge` document has a
truthy name and is settled against it. -/
theorem chargesRun_settles (tp : ChargeDoc → Obj)
    (hname : ∀ dd, Obj.get (tp dd) "name" = Obj.get dd.spec "name") :
    ∀ (docs : List ChargeDoc) (st : ChargesRun), st.server.WF →
      (List.foldl (loadChargeDoc false tp) st docs).updated = st.updated →
      (List.foldl (loadChargeDoc false tp) st docs).failed = st.failed →
      (List.foldl (loadChargeDoc false tp) st docs).server.WF ∧
        (∀ d2, chargeSettled tp st.server d2 →
          chargeSettled tp (List.foldl (loadChargeDoc false tp) st docs).server d2) ∧
        (∀ dd ∈ docs, dd.kind = "Charge" →
          pyFalsy (dd.spec.get "name") = false ∧
          chargeSettled tp (List.foldl (loadChargeDoc false tp) st docs).server dd)
  | [], st => by
      intro hwf _ _
      exact ⟨hwf, fun d2 h => h, by simp⟩
  | doc :: rest, st => by
      intro hwf hu hf
      rw [List.foldl_cons] at hu hf ⊢
      obtain ⟨⟨u1, hu1⟩, ⟨f1, hf1⟩⟩ := loadChargeDoc_deltas false tp st doc
      obtain ⟨⟨u2, hu2⟩, ⟨f2, hf2⟩⟩ :=
        foldl_deltas false tp rest (loadChargeDoc false tp st doc)
      have hu0 : u1 = [] ∧ u2 = [] := by
        apply append_append_self st.updated u1 u2
        rw [← hu1, ← hu2]
        exact hu
      have hf0 : f1 = [] ∧ f2 = [] := by
        apply append_append_self st.failed f1 f2
        rw [← hf1, ← hf2]
        exact hf
      have hustep : (loadChargeDoc false tp st doc).updated = st.updated := by
        rw [hu1, hu0.1, List.append_nil]
      have hfstep : (loadChargeDoc false tp st doc).failed = st.failed := by
        rw [hf1, hf0.1, List.append_nil]
      obtain ⟨hwf1, hpres1, hown1⟩ :=
        chargeStep_preserves tp hname st doc hwf hustep hfstep
      have hurest :
          (List.foldl (loadChargeDoc false tp) (loadChargeDoc false tp st doc)
            rest).updated = (loadChargeDoc false tp st doc).updated := by
        rw [hu2, hu0.2, List.append_nil]
      have hfrest :
          (List.foldl (loadChargeDoc false tp) (loadChargeDoc false tp st doc)
            rest).failed = (loadChargeDoc false tp st doc).failed := by
        rw [hf2, hf0.2, List.append_nil]
      obtain ⟨hwfF, hpresF, hownF⟩ :=
        chargesRun_settles tp hname rest (loadChargeDoc false tp st doc)
          hwf1 hurest hfrest
      refine ⟨hwfF, ?_, ?_⟩
      · intro d2 h
        exact hpresF d2 (hpres1 d2 h)
      · intro dd hdd hk
        rcases List.mem_cons.mp hdd with hdd2 | hdd2
        · subst hdd2
          obtain ⟨hn, hset⟩ := hown1 hk
          exact ⟨hn, hpresF dd hset⟩
        · exact hownF dd hdd2 hk

/-- A run over documents that are all already settled changes nothing: every
`Charge` document is skipped, the remote state is untouched, and no created,
updated or failed outcome is produced. -/
theorem chargesRun_all_skip (tp : ChargeDoc → Obj) :
    ∀ (docs : List ChargeDoc) (st : ChargesRun),
      (∀ dd ∈ docs, dd.kind = "Charge" →
        pyFalsy (dd.spec.get "name") = false ∧ chargeSettled tp st.server dd) →
      (List.foldl (loadChargeDoc false tp) st docs).server = st.server ∧
        (List.foldl (loadChargeDoc false tp) st docs).loaded = st.loaded ∧
        (List.foldl (loadChargeDoc false tp) st docs).updated = st.updated ∧
        (List.foldl (loadChargeDoc false tp) st docs).failed = st.failed ∧
        (List.foldl (loadChargeDoc false tp) st docs).skipped.length =
          st.skipped.length +
            (docs.filter (fun dd => dd.kind == "Charge")).length
  | [], st => by
      intro _
      simp
  | doc :: rest, st => by
      intro hset
      rw [List.foldl_cons]
      by_cases hk : doc.kind = "Charge"
      · obtain ⟨hn, i, hfind, hch⟩ := hset doc (by simp) hk
        rw [loadChargeDoc_skip false tp st doc i hk hn hfind hch]
        have hrest := chargesRun_all_skip tp rest
          { st with skipped := st.skipped ++ [(doc.spec.get "name", i)] }
          (fun dd hdd hk2 => hset dd (by simp [hdd]) hk2)
        obtain ⟨h1, h2, h3, h4, h5⟩ := hrest
        refine ⟨h1, h2, h3, h4, ?_⟩
        rw [h5]
        simp [hk]
        omega
      · rw [loadChargeDoc_not_charge false tp st doc hk]
        have hrest := chargesRun_all_skip tp rest st
          (fun dd hdd hk2 => hset dd (by simp [hdd]) hk2)
        obtain ⟨h1, h2, h3, h4, h5⟩ := hrest
        refine ⟨h1, h2, h3, h4, ?_⟩
        rw [h5]
        simp [hk]

/-- C1: if a first `load_all` run over a declared charges corpus completes
with every entity created or skipped (no `updated`, no `failed` outcome)
against a well-formed remote state, then a second run over the same corpus
against the resulting remote state produces zero created and zero updated
outcomes: every `Charge` document is classified skipped-unchanged, nothing
fails, and the remote state is not touched again.  The payload mapper is any
function that stores the declared name in the payload's `name` field, as
`ChargesLoader.yaml_to_fineract_api` does. -/
theorem C1_loadAll_idempotent (tp : ChargeDoc → Obj)
    (hname : ∀ dd, Obj.get (tp dd) "name" = Obj.get dd.spec "name")
    (s0 : Server) (hwf : s0.WF) (docs : List ChargeDoc)
    (h1u : (chargesLoadAll false tp s0 docs).updated = [])
    (h1f : (chargesLoadAll false tp s0 docs).failed = []) :
    (chargesLoadAll false tp (chargesLoadAll false tp s0 docs).server docs).loaded = [] ∧
      (chargesLoadAll false tp (chargesLoadAll false tp s0 docs).server docs).updated = [] ∧
      (chargesLoadAll false tp (chargesLoadAll false tp s0 docs).server docs).failed = [] ∧
      (chargesLoadAll false tp (chargesLoadAll false tp s0 docs).server docs).skipped.length =
        (docs.filter (fun dd => dd.kind == "Charge")).length ∧
      (chargesLoadAll false tp (chargesLoadAll false tp s0 docs).server docs).server =
        (chargesLoadAll false tp s0 docs).server := by
  obtain ⟨hwf1, _, hsettled⟩ :=
    chargesRun_settles tp hname docs { server := s0 } hwf h1u h1f
  obtain ⟨h1, h2, h3, h4, h5⟩ :=
    chargesRun_all_skip tp docs
      { server := (chargesLoadAll false tp s0 docs).server } hsettled
  exact ⟨h2, h3, h4, by simpa using h5, h1⟩

/-- Witness for `C1_loadAll_idempotent`: one declared charge against an empty
remote; the first run creates it, the second run skips it. -/
theorem C1_loadAll_idempotent_witness :
    (chargesLoadAll false (fun d => [("name", d.spec.get "name"), ("amount", .vNum 10)])
      (chargesLoadAll false (fun d => [("name", d.spec.get "name"), ("amount", .vNum 10)])
        { entities := [], nextId := 1 }
        [⟨"fee.yaml", "Charge", [("name", .vStr "Fee")]⟩]).server
      [⟨"fee.yaml", "Charge", [("name", .vStr "Fee")]⟩]).loaded = [] ∧
    (chargesLoadAll false (fun d => [("name", d.spec.get "name"), ("amount", .vNum 10)])
      (chargesLoadAll false (fun d => [("name", d.spec.get "name"), ("amount", .vNum 10)])
        { entities := [], nextId := 1 }
        [⟨"fee.yaml", "Charge", [("name", .vStr "Fee")]⟩]).server
      [⟨"fee.yaml", "Charge", [("name", .vStr "Fee")]⟩]).updated = [] ∧
    (chargesLoadAll false (fun d => [("name", d.spec.get "name"), ("amount", .vNum 10)])
      (chargesLoadAll false (fun d => [("name", d.spec.get "name"), ("amount", .vNum 10)])
        { entities := [], nextId := 1 }
        [⟨"fee.yaml", "Charge", [("name", .vStr "Fee")]⟩]).server
      [⟨"fee.yaml", "Charge", [("name", .vStr "Fee")]⟩]).failed = [] ∧
    (chargesLoadAll false (fun d => [("name", d.spec.get "name"), ("amount", .vNum 10)])
      (chargesLoadAll false (fun d => [("name", d.spec.get "name"), ("amount", .vNum 10)])
        { entities := [], nextId := 1 }
        [⟨"fee.yaml", "Charge", [("name", .vStr "Fee")]⟩]).server
      [⟨"fee.yaml", "Charge", [("name", .vStr "Fee")]⟩]).skipped.length =
      (([⟨"fee.yaml", "Charge", [("name", .vStr "Fee")]⟩] :
          List ChargeDoc).filter (fun dd => dd.kind == "Charge")).length ∧
    (chargesLoadAll false (fun d => [("name", d.spec.get "name"), ("amount", .vNum 10)])
      (chargesLoadAll false (fun d => [("name", d.spec.get "name"), ("amount", .vNum 10)])
        { entities := [], nextId := 1 }
        [⟨"fee.yaml", "Charge", [("name", .vStr "Fee")]⟩]).server
      [⟨"fee.yaml", "Charge", [("name", .vStr "Fee")]⟩]).server =
      (chargesLoadAll false (fun d => [("name", d.spec.get "name"), ("amount", .vNum 10)])
        { entities := [], nextId := 1 }
        [⟨"fee.yaml", "Charge", [("name", .vStr "Fee")]⟩]).server :=
  C1_loadAll_idempotent (fun d => [("name", d.spec.get "name"), ("amount", .vNum 10)])
    (fun _ => rfl) { entities := [], nextId := 1 }
    ⟨Nat.one_pos, by intro e he; simp at he⟩
    [⟨"fee.yaml", "Charge", [("name", .vStr "Fee")]⟩] rfl rfl

/-- C6 (counterexample): a call holding a valid cached token that is answered
with HTTP 401 returns `None` after a single request, with no token
re-acquisition and no retry — the claim's "re-acquires a token and retries
the call once" does not exist in the code. -/
theorem C6_401_no_retry_cex :
    loaderGet 500 { accessToken := some "tok", tokenExpiry := some 1000 }
      { token := "fresh", expiresIn := some 300 } (.httpError 401) =
      ({ accessToken := some "tok", tokenExpiry := some 1000 },
        { acquisitions := 0, requestsSent := 1, result := none }) := rfl

/-- C6 (amended): when OAuth2 client credentials are configured (a token is
cached), every call issued at or after the cached expiry timestamp (issued
lifetime minus the 30-second margin) first re-acquires a token exactly once
before sending the request; a call answered with HTTP 401 is not retried and
does not re-acquire a token — it sends exactly one request and returns
`None`. -/
theorem C6_token_refresh_semantics (now exp : ℚ) (tok : String)
    (tokResp : TokenResp) (answer : HttpAnswer) (status : Nat)
    (htok : tok ≠ "") (hexp : exp ≠ 0) (hpast : exp ≤ now) :
    (loaderGet now { accessToken := some tok, tokenExpiry := some exp }
        tokResp answer).2.acquisitions = 1 ∧
      (loaderGet now { accessToken := some tok, tokenExpiry := some exp }
        tokResp answer).1 = obtainToken now tokResp ∧
      ∀ (st : TokenState),
        (loaderGet now st tokResp (.httpError status)).2.result = none ∧
        (loaderGet now st tokResp (.httpError status)).2.requestsSent = 1 := by
  have hcond : (truthyTok (some tok) && truthyExp (some exp)) = true := by
    simp [truthyTok, truthyExp, htok, hexp]
  have hEns : ensureValidToken now
      { accessToken := some tok, tokenExpiry := some exp } tokResp =
      (obtainToken now tokResp, 1) := by
    unfold ensureValidToken
    rw [if_pos hcond, if_pos (by simpa using hpast)]
  have hT : truthyTok (some tok) = true := by simp [truthyTok, htok]
  refine ⟨?_, ?_, ?_⟩
  · cases answer <;> simp [loaderGet, hT, hEns]
  · cases answer <;> simp [loaderGet, hT, hEns]
  · intro st
    unfold loaderGet
    cases htr : truthyTok st.accessToken <;> simp [htr]

/-- Witness for `C6_token_refresh_semantics`: a call at time 2000 with a
token that expired at 1000 re-acquires exactly once. -/
theorem C6_token_refresh_semantics_witness :
    (loaderGet 2000 { accessToken := some "tok", tokenExpiry := some 1000 }
        { token := "fresh", expiresIn := some 300 } (.ok [])).2.acquisitions = 1 ∧
      (loaderGet 2000 { accessToken := some "tok", tokenExpiry := some 1000 }
        { token := "fresh", expiresIn := some 300 } (.ok [])).1 =
        obtainToken 2000 { token := "fresh", expiresIn := some 300 } ∧
      ∀ (st : TokenState),
        (loaderGet 2000 st { token := "fresh", expiresIn := some 300 }
          (.httpError 401)).2.result = none ∧
        (loaderGet 2000 st { token := "fresh", expiresIn := some 300 }
          (.httpError 401)).2.requestsSent = 1 :=
  C6_token_refresh_semantics 2000 1000 "tok"
    { token := "fresh", expiresIn := some 300 } (.ok []) 401
    (by decide) (by norm_num) (by norm_num)

theorem Value.beq_str (a b : String) :
    Value.beq (.vStr a) (.vStr b) = (a == b) := rfl

/-- C7 (counterexample): for the code-values kind, declared `{X, Y}` against
remote `{Y, Z}` yields only the `missing_in_api` finding for `X` — there is
no `missing-in-declaration` finding for `Z`, contradicting the claim that
every covered kind reports exactly one such finding. -/
theorem C7_code_values_asymmetric_cex :
    compare_code_values
      [⟨.vStr "X", .vNull⟩, ⟨.vStr "Y", .vNull⟩]
      (some [[("name", .vStr "Y"), ("id", .vNum 1)],
             [("name", .vStr "Z"), ("id", .vNum 2)]]) =
      .ok [⟨"code_value", .vStr "X", "missing_in_api"⟩] := rfl

/-- C7 (amended): for offices, declared `{X, Y}` against remote `{Y, Z}`
yields exactly one `missing_in_api` finding for `X`, exactly one
`extra_in_api` finding for `Z`, and no finding for `Y` (offices have no
field comparison at all); for code values the same input yields exactly the
one `missing_in_api` finding for `X` — remote-only codes are never
reported. -/
theorem C7_drift_orientation (x y z : String)
    (hx : x ≠ "") (hy : y ≠ "") (hz : z ≠ "")
    (hxy : x ≠ y) (hxz : x ≠ z) (hyz : y ≠ z) :
    compare_offices
        [⟨.vStr x, .vNull⟩, ⟨.vStr y, .vNull⟩]
        (some [[("name", .vStr y), ("id", .vNum 1)],
               [("name", .vStr z), ("id", .vNum 2)]]) =
      .ok [⟨"office", .vStr x, "missing_in_api"⟩,
           ⟨"office", .vStr z, "extra_in_api"⟩] ∧
      compare_code_values
        [⟨.vStr x, .vNull⟩, ⟨.vStr y, .vNull⟩]
        (some [[("name", .vStr y), ("id", .vNum 1)],
               [("name", .vStr z), ("id", .vNum 2)]]) =
      .ok [⟨"code_value", .vStr x, "missing_in_api"⟩] := by
  have bx : (x == "") = false := beq_eq_false_iff_ne.mpr hx
  have bby : (y == "") = false := beq_eq_false_iff_ne.mpr hy
  have bz : (z == "") = false := beq_eq_false_iff_ne.mpr hz
  have bxy : (x == y) = false := beq_eq_false_iff_ne.mpr hxy
  have bxz : (x == z) = false := beq_eq_false_iff_ne.mpr hxz
  have byz : (y == z) = false := beq_eq_false_iff_ne.mpr hyz
  have byx : (y == x) = false := beq_eq_false_iff_ne.mpr (fun h => hxy h.symm)
  have bzx : (z == x) = false := beq_eq_false_iff_ne.mpr (fun h => hxz h.symm)
  have bzy : (z == y) = false := beq_eq_false_iff_ne.mpr (fun h => hyz h.symm)
  constructor <;>
    simp [compare_offices, compare_code_values, buildApiDict, dictInsert,
      driftName, pyFalsy, Obj.hasKey, Obj.get, Value.beq_str, exceptBind_ok,
      bx, bby, bz, bxy, bxz, byz, byx, bzx, bzy, List.foldlM, List.foldl,
      List.filter, List.any]

/-- Witness for `C7_drift_orientation` at names `"X"`, `"Y"`, `"Z"`. -/
theorem C7_drift_orientation_witness :
    compare_offices
        [⟨.vStr "X", .vNull⟩, ⟨.vStr "Y", .vNull⟩]
        (some [[("name", .vStr "Y"), ("id", .vNum 1)],
               [("name", .vStr "Z"), ("id", .vNum 2)]]) =
      .ok [⟨"office", .vStr "X", "missing_in_api"⟩,
           ⟨"office", .vStr "Z", "extra_in_api"⟩] ∧
      compare_code_values
        [⟨.vStr "X", .vNull⟩, ⟨.vStr "Y", .vNull⟩]
        (some [[("name", .vStr "Y"), ("id", .vNum 1)],
               [("name", .vStr "Z"), ("id", .vNum 2)]]) =
      .ok [⟨"code_value", .vStr "X", "missing_in_api"⟩] :=
  C7_drift_orientation "X" "Y" "Z" (by decide) (by decide) (by decide)
    (by decide) (by decide) (by decide)

/-- C8: when drift findings exist and dry-run is off, both alert sinks are
attempted regardless of what the other sink did (a raising sink is caught
inside its own function), and the exit code is 1 exactly when at least one
finding exists and 0 otherwise, independent of sink configuration and of
whether any alert was delivered. -/
theorem C8_sink_isolation_and_exit (findings : List Finding) (cfg : AlertCfg)
    (hne : findings ≠ [])
    (hsl : truthyTok cfg.slackWebhook = true)
    (hhost : truthyTok cfg.smtpHost = true)
    (hfrom : truthyTok cfg.emailFrom = true)
    (hto : truthyTok cfg.emailTo = true) :
    (∀ slackOut emailOut,
      (driftMainFinish findings false cfg slackOut emailOut).slackAttempted = true ∧
      (driftMainFinish findings false cfg slackOut emailOut).emailAttempted = true) ∧
      (∀ (f2 : List Finding) (dryRun : Bool) (cfg2 : AlertCfg)
          (so eo : SinkOutcome),
        (driftMainFinish f2 dryRun cfg2 so eo).exitCode =
          if f2.isEmpty then 0 else 1) := by
  constructor
  · intro slackOut emailOut
    have hne2 : findings.isEmpty = false := by
      cases findings with
      | nil => exact absurd rfl hne
      | cons a l => rfl
    cases slackOut <;> cases emailOut <;>
      simp [driftMainFinish, send_slack_alert, send_email_alert, hne2,
        hsl, hhost, hfrom, hto]
  · intro f2 dryRun cfg2 so eo
    rfl

/-- Witness for `C8_sink_isolation_and_exit`: one finding, both sinks
configured; with the Slack webhook raising, the email sink is still
attempted and the exit code is 1. -/
theorem C8_sink_isolation_and_exit_witness :
    (∀ slackOut emailOut,
      (driftMainFinish [⟨"office", .vStr "X", "missing_in_api"⟩] false
        ⟨some "hook", some "smtp", some "from", some "to"⟩
        slackOut emailOut).slackAttempted = true ∧
      (driftMainFinish [⟨"office", .vStr "X", "missing_in_api"⟩] false
        ⟨some "hook", some "smtp", some "from", some "to"⟩
        slackOut emailOut).emailAttempted = true) ∧
      (∀ (f2 : List Finding) (dryRun : Bool) (cfg2 : AlertCfg)
          (so eo : SinkOutcome),
        (driftMainFinish f2 dryRun cfg2 so eo).exitCode =
          if f2.isEmpty then 0 else 1) :=
  C8_sink_isolation_and_exit [⟨"office", .vStr "X", "missing_in_api"⟩]
    ⟨some "hook", some "smtp", some "from", some "to"⟩
    (by simp) (by decide) (by decide) (by decide) (by decide)

/-- The pass counter never exceeds the fuel (`range(max_passes)`). -/
theorem branchPasses_le_fuel {σ : Type} (ls : σ → OfficeDoc → σ × LoadRes) :
    ∀ (fuel passNum : Nat) (st : σ) (res : OfficesResults)
      (rem : List OfficeDoc),
      (officesBranchPasses ls fuel passNum st res rem).2.2 ≤ fuel
  | 0, _, _, _, _ => Nat.le_refl 0
  | fuel + 1, passNum, st, res, rem => by
      unfold officesBranchPasses
      split
      · exact Nat.zero_le _
      · dsimp only
        split
        · exact Nat.succ_le_succ (Nat.zero_le _)
        · exact Nat.succ_le_succ (branchPasses_le_fuel ls fuel (passNum + 1) _ _ _)

/-- A pass whose every file defers leaves the counters untouched and defers
every file, in order. -/
theorem allRetry_fold {σ : Type} (ls : σ → OfficeDoc → σ × LoadRes) :
    ∀ (rem : List OfficeDoc) (stA : σ) (resA : OfficesResults)
      (stillA : List OfficeDoc),
      (∀ (s : σ) (d : OfficeDoc), d ∈ rem → isParentRetry (ls s d).2 = true) →
      ∃ stF, rem.foldl (officesPassStep ls) (stA, resA, stillA) =
        (stF, resA, stillA ++ rem)
  | [], stA, resA, stillA => fun _ => ⟨stA, by simp⟩
  | d :: rest, stA, resA, stillA => by
      intro hall
      rw [List.foldl_cons]
      have hd := hall stA d (by simp)
      have hstep : officesPassStep ls (stA, resA, stillA) d =
          ((ls stA d).1, resA, stillA ++ [d]) := by
        unfold officesPassStep
        cases hr : (ls stA d).2 with
        | success => rw [hr] at hd; simp [isParentRetry] at hd
        | updated => rw [hr] at hd; simp [isParentRetry] at hd
        | skipped => rw [hr] at hd; simp [isParentRetry] at hd
        | err m =>
            rw [hr] at hd
            simp only [isParentRetry] at hd
            simp [hr, hd]
      rw [hstep]
      obtain ⟨stF, hF⟩ := allRetry_fold ls rest ((ls stA d).1) resA (stillA ++ [d])
        (fun s d2 hd2 => hall s d2 (by simp [hd2]))
      exact ⟨stF, by rw [hF]; simp⟩

/-- C5: the branch-office pass loop always terminates.  (1) With the
source's pass budget of 5, at most 5 passes are ever executed, for any
`load_single` behaviour.  (2) A pass in which the remaining-file list keeps
the same size as before (every file deferred) ends the loop in that very
pass, marking every remaining file failed with a
`Parent office not found after N passes` error.  (3) In particular a
declared set with a parent cycle (office A's parent is B, B's parent is A)
ends after one pass with both entities failed — never an infinite loop. -/
theorem C5_pass_loop_terminates :
    (∀ (σ : Type) (ls : σ → OfficeDoc → σ × LoadRes) (passNum : Nat) (st : σ)
        (res : OfficesResults) (rem : List OfficeDoc),
      (officesBranchPasses ls 5 passNum st res rem).2.2 ≤ 5) ∧
      (∀ (σ : Type) (ls : σ → OfficeDoc → σ × LoadRes) (passNum : Nat)
          (st : σ) (res : OfficesResults) (rem : List OfficeDoc),
        rem ≠ [] →
        (∀ (s : σ) (d : OfficeDoc), d ∈ rem → isParentRetry (ls s d).2 = true) →
        (officesBranchPasses ls 5 passNum st res rem).2.1.failed =
            res.failed + rem.length ∧
          (officesBranchPasses ls 5 passNum st res rem).2.1.errors =
            res.errors ++ rem.map (fun d =>
              d.fileName ++ ": Parent office not found after " ++
                toString (passNum + 1) ++ " passes") ∧
          (officesBranchPasses ls 5 passNum st res rem).2.2 = 1) ∧
      ((officesLoadAll
          [⟨"office-a.yaml", "office-a",
            [("name", .vStr "A"), ("parentOffice", .vStr "B")]⟩,
           ⟨"office-b.yaml", "office-b",
            [("name", .vStr "B"), ("parentOffice", .vStr "A")]⟩]
          { offices := [], nextId := 1 }).2.1.failed = 2 ∧
        (officesLoadAll
          [⟨"office-a.yaml", "office-a",
            [("name", .vStr "A"), ("parentOffice", .vStr "B")]⟩,
           ⟨"office-b.yaml", "office-b",
            [("name", .vStr "B"), ("parentOffice", .vStr "A")]⟩]
          { offices := [], nextId := 1 }).2.1.success = 0 ∧
        (officesLoadAll
          [⟨"office-a.yaml", "office-a",
            [("name", .vStr "A"), ("parentOffice", .vStr "B")]⟩,
           ⟨"office-b.yaml", "office-b",
            [("name", .vStr "B"), ("parentOffice", .vStr "A")]⟩]
          { offices := [], nextId := 1 }).2.1.updated = 0 ∧
        (officesLoadAll
          [⟨"office-a.yaml", "office-a",
            [("name", .vStr "A"), ("parentOffice", .vStr "B")]⟩,
           ⟨"office-b.yaml", "office-b",
            [("name", .vStr "B"), ("parentOffice", .vStr "A")]⟩]
          { offices := [], nextId := 1 }).2.2 = 1) := by
  refine ⟨fun σ ls pn st res rem => branchPasses_le_fuel ls 5 pn st res rem,
    ?_, by refine ⟨rfl, rfl, rfl, rfl⟩⟩
  intro σ ls passNum st res rem hne hall
  show _ ∧ _ ∧ _
  unfold officesBranchPasses
  rw [if_neg (by simpa using hne)]
  obtain ⟨stF, hF⟩ := allRetry_fold ls rem st res [] hall
  rw [show (rem.foldl (officesPassStep ls) (st, res, ([] : List OfficeDoc))) =
    (stF, res, rem) from by rw [hF]; simp]
  dsimp only
  rw [if_pos (by simp)]
  exact ⟨rfl, rfl, rfl⟩

/-- Witness for `C5_pass_loop_terminates`: a `load_single` stub that always
reports `Parent office ... not found` makes the first pass the last, with
the one remaining file failed. -/
theorem C5_pass_loop_terminates_witness :
    (officesBranchPasses
        (fun (s : Unit) (_ : OfficeDoc) => (s, .err "Parent office P not found"))
        5 0 () {} [⟨"w.yaml", "w", []⟩]).2.1.failed = 1 ∧
      (officesBranchPasses
        (fun (s : Unit) (_ : OfficeDoc) => (s, .err "Parent office P not found"))
        5 0 () {} [⟨"w.yaml", "w", []⟩]).2.1.errors =
        ["w.yaml: Parent office not found after 1 passes"] ∧
      (officesBranchPasses
        (fun (s : Unit) (_ : OfficeDoc) => (s, .err "Parent office P not found"))
        5 0 () {} [⟨"w.yaml", "w", []⟩]).2.2 = 1 :=
  C5_pass_loop_terminates.2.1 Unit
    (fun s _ => (s, .err "Parent office P not found")) 0 () {}
    [⟨"w.yaml", "w", []⟩] (by simp) (fun s d _ => rfl)

/-- C4 (code bug): an office whose same-kind parent reference does not
resolve is NOT deferred.  `yaml_to_fineract_api` hits
`self.logger.warning(...)` (`offices.py:90`), which raises `AttributeError`
because the loader has no `logger` attribute; `load_single` catches it and
returns its message, which contains neither `Parent office` nor `not found`,
so `load_all` counts the office failed in the very first pass instead of
retrying it; no office is created.  The deferral branch of
`offices.py:299-301` is unreachable. -/
theorem C4_unresolved_parent_not_deferred :
    isParentRetry (.err officesLoggerAttrError) = false ∧
      officesLoadSingle { server := { offices := [], nextId := 1 } }
        ⟨"branch-a.yaml", "branch-a",
          [("name", .vStr "Branch A"), ("parentOffice", .vStr "Missing Region")]⟩ =
        ({ server := { offices := [], nextId := 1 },
           failedFiles := ["branch-a.yaml"] }, .err officesLoggerAttrError) ∧
      (officesLoadAll
        [⟨"branch-a.yaml", "branch-a",
          [("name", .vStr "Branch A"), ("parentOffice", .vStr "Missing Region")]⟩]
        { offices := [], nextId := 1 }).2.1.failed = 1 ∧
      (officesLoadAll
        [⟨"branch-a.yaml", "branch-a",
          [("name", .vStr "Branch A"), ("parentOffice", .vStr "Missing Region")]⟩]
        { offices := [], nextId := 1 }).2.1.errors =
        ["branch-a.yaml: " ++ officesLoggerAttrError] ∧
      (officesLoadAll
        [⟨"branch-a.yaml", "branch-a",
          [("name", .vStr "Branch A"), ("parentOffice", .vStr "Missing Region")]⟩]
        { offices := [], nextId := 1 }).2.2 = 1 ∧
      (officesLoadAll
        [⟨"branch-a.yaml", "branch-a",
          [("name", .vStr "Branch A"), ("parentOffice", .vStr "Missing Region")]⟩]
        { offices := [], nextId := 1 }).1.server.offices = [] :=
  ⟨rfl, rfl, rfl, rfl, rfl, rfl⟩

end FineractGitops
